import Mathlib

/-!
Verification of the AI_Tutor orchestration core: a shallow embedding of the
intent-classification → parameter-extraction → validation → tool-dispatch
pipeline (`context_analyzer.py`, `parameter_extractor.py`,
`schema_validator.py`, `tool_orchestrator.py`) together with theorems that
settle the specification claims about it.

Python dictionaries with string keys are embedded either as association
lists (`List (String × α)`, insertion order preserved, used where the code
builds dictionaries incrementally) or as lookup functions
(`String → Option Value`, used for read-only parameter bags).  Python's
JSON-like runtime values are embedded as the inductive `Value`.  Exceptions
raised inside the validator's `try` block are embedded with `Except Unit`.
-/

/-- A Python runtime value as far as the orchestration core inspects it:
strings, ints, bools, `None`, lists and string-keyed dicts. -/
inductive Value where
  | str (s : String)
  | int (n : Int)
  | bool (b : Bool)
  | null
  | arr (xs : List Value)
  | obj (fields : List (String × Value))

namespace Value

def isStr : Value → Bool | .str _ => true | _ => false

/-- Python `isinstance(v, int)`: `True` both for ints and for bools
(`bool` is a subclass of `int`). -/
def isInstInt : Value → Bool | .int _ => true | .bool _ => true | _ => false

def isBool : Value → Bool | .bool _ => true | _ => false

def isArr : Value → Bool | .arr _ => true | _ => false

def isObj : Value → Bool | .obj _ => true | _ => false

/-- Python `v is None`. -/
def isNull : Value → Bool | .null => true | _ => false

/-- The integer a value stands for in Python integer comparisons
(bools compare as 0/1); only used on values passing `isInstInt`. -/
def asInt : Value → Int
  | .int n => n
  | .bool b => if b then 1 else 0
  | _ => 0

end Value

/-! ### Association-list dictionaries (insertion-ordered, unique keys) -/

/-- First-match lookup, the reading side of a Python dict. -/
def alookup {α : Type} : List (String × α) → String → Option α
  | [], _ => none
  | (k, v) :: t, key => if k = key then some v else alookup t key

/-- Python `d[k] = v`: replace the entry for `k` in place, else append. -/
def aset {α : Type} : List (String × α) → String → α → List (String × α)
  | [], key, v => [(key, v)]
  | (k, w) :: t, key, v => if k = key then (key, v) :: t else (k, w) :: aset t key v

/-- Python `d1.update(d2)`: assign every entry of `d2` into `d1` in order
(later writers overwrite earlier ones). -/
def aupdate {α : Type} (d1 d2 : List (String × α)) : List (String × α) :=
  d2.foldl (fun d kv => aset d kv.1 kv.2) d1

@[simp] theorem alookup_nil {α : Type} (key : String) : alookup ([] : List (String × α)) key = none := rfl

@[simp] theorem alookup_cons {α : Type} (k : String) (v : α) (t : List (String × α)) (key : String) :
    alookup ((k, v) :: t) key = if k = key then some v else alookup t key := rfl

theorem alookup_aset_self {α : Type} (d : List (String × α)) (key : String) (v : α) :
    alookup (aset d key v) key = some v := by
  induction d with
  | nil => simp [aset]
  | cons h t ih =>
    obtain ⟨k, w⟩ := h
    by_cases hk : k = key <;> simp [aset, hk, ih]

theorem alookup_aset_ne {α : Type} (d : List (String × α)) (key k' : String) (v : α)
    (h : key ≠ k') : alookup (aset d key v) k' = alookup d k' := by
  induction d with
  | nil => simp [aset, h]
  | cons hd t ih =>
    obtain ⟨k, w⟩ := hd
    by_cases hk : k = key
    · subst hk; simp [aset, h]
    · simp [aset, hk, ih]

theorem alookup_aupdate_of_none {α : Type} (d1 d2 : List (String × α)) (key : String)
    (h : alookup d2 key = none) : alookup (aupdate d1 d2) key = alookup d1 key := by
  induction d2 generalizing d1 with
  | nil => rfl
  | cons hd t ih =>
    obtain ⟨k, v⟩ := hd
    simp only [alookup_cons] at h
    by_cases hk : k = key
    · simp [hk] at h
    · simp only [aupdate, List.foldl_cons] at *
      rw [ih _ (by simpa [hk] using h), alookup_aset_ne _ _ _ _ hk]

theorem alookup_aupdate_of_some {α : Type} (d1 d2 : List (String × α)) (key : String) (v : α)
    (hnd : (d2.map Prod.fst).Nodup) (h : alookup d2 key = some v) :
    alookup (aupdate d1 d2) key = some v := by
  induction d2 generalizing d1 with
  | nil => simp at h
  | cons hd t ih =>
    obtain ⟨k, w⟩ := hd
    simp only [List.map_cons, List.nodup_cons] at hnd
    simp only [alookup_cons] at h
    by_cases hk : k = key
    · subst hk
      rw [if_pos rfl, Option.some.injEq] at h
      subst h
      simp only [aupdate, List.foldl_cons]
      have ht : alookup t k = none := by
        cases hl : alookup t k with
        | none => rfl
        | some u =>
          exfalso
          apply hnd.1
          clear ih hnd
          induction t with
          | nil => simp at hl
          | cons x xs ihx =>
            obtain ⟨xk, xv⟩ := x
            simp only [alookup_cons] at hl
            by_cases hx : xk = k
            · simp [hx]
            · simp only [List.map_cons, List.mem_cons]
              exact Or.inr (ihx (by simpa [hx] using hl))
      rw [show List.foldl (fun d kv => aset d kv.1 kv.2) (aset d1 k w) t
            = aupdate (aset d1 k w) t from rfl]
      rw [alookup_aupdate_of_none _ _ _ ht, alookup_aset_self]
    · simp only [if_neg hk] at h
      simp only [aupdate, List.foldl_cons]
      exact ih _ hnd.2 h

/-! ### String helpers (Python semantics) -/

/-- Python whitespace for `str.strip` and `\s` (ASCII fragment). -/
def isPySpace (c : Char) : Bool :=
  c = ' ' || c = '\t' || c = '\n' || c = '\x0d' || c = '\x0b' || c = '\x0c'

/-- Python `needle in haystack` for strings: substring containment. -/
def listContainsSub (needle : List Char) : List Char → Bool
  | [] => needle.isEmpty
  | c :: t => needle.isPrefixOf (c :: t) || listContainsSub needle t

def strContainsSub (haystack needle : String) : Bool :=
  listContainsSub needle.data haystack.data

/-- Python `value.strip()` (both ends). -/
def pyStrip (s : String) : String :=
  ⟨((s.data.dropWhile isPySpace).reverse.dropWhile isPySpace).reverse⟩

/-- `value.strip().replace('\x00', '')` from `sanitize_input`. -/
def cleanStr (s : String) : String :=
  ⟨(pyStrip s).data.filter (fun c => c ≠ '\x00')⟩

/-- Python `s.lower()` (ASCII fragment), computed per character so the
kernel can evaluate it (`String.toLower` itself does not reduce). -/
def pyLower (s : String) : String :=
  ⟨s.data.map Char.toLower⟩

/-! ### Data model (`models.py`) -/

inductive Role where
  | user
  | assistant
deriving DecidableEq

def Role.value : Role → String
  | .user => "user"
  | .assistant => "assistant"

inductive TeachingStyle where
  | direct
  | socratic
  | visual
  | flipped_classroom
deriving DecidableEq

inductive EmotionalState where
  | focused
  | anxious
  | confused
  | tired
deriving DecidableEq

structure ChatMessage where
  role : Role
  content : String

structure UserInfo where
  user_id : String
  name : String
  grade_level : String
  learning_style_summary : String
  emotional_state_summary : String
  mastery_level_summary : String

structure ConversationContext where
  user_info : UserInfo
  chat_history : List ChatMessage
  current_message : String
  teaching_style : Option TeachingStyle := none
  emotional_state : Option EmotionalState := none
  mastery_level : Option Int := none

structure EducationalIntent where
  intent_type : String
  confidence : ℚ
  extracted_parameters : List (String × Value)
  missing_parameters : List String
  suggested_tool : String

structure ToolRequest where
  tool_name : String
  parameters : List (String × Value)
  user_info : UserInfo
  chat_history : List ChatMessage

structure ToolResponse where
  success : Bool
  data : Option (List (String × Value)) := none
  error : Option String := none
  error_code : Option String := none

structure OrchestratorResponse where
  success : Bool
  tool_response : Option ToolResponse := none
  educational_intent : Option EducationalIntent := none
  error_message : Option String := none
  conversation_context : Option ConversationContext := none

/-- `ChatMessage.dict()`: the pydantic dict of a chat message. -/
def ChatMessage.toValue (m : ChatMessage) : Value :=
  .obj [("role", .str m.role.value), ("content", .str m.content)]

/-- `UserInfo.dict()`: the pydantic dict of a user profile. -/
def UserInfo.toValue (u : UserInfo) : Value :=
  .obj [("user_id", .str u.user_id), ("name", .str u.name),
        ("grade_level", .str u.grade_level),
        ("learning_style_summary", .str u.learning_style_summary),
        ("emotional_state_summary", .str u.emotional_state_summary),
        ("mastery_level_summary", .str u.mastery_level_summary)]

/-! ### Schema validator (`schema_validator.py`) -/

namespace SchemaValidator

/-- One entry of a validation-error list (the four keys every error dict
carries; the extra `expected_type`/`actual_type` keys of `INVALID_TYPE`
errors are folded into the message). -/
structure VError where
  etype : String
  efield : String
  message : String
  code : String
deriving DecidableEq

/-- A per-field constraint dict.  Field names follow the Python keys
(`min`, `max`, `type`, `enum` are spelled `intMin`, `intMax`, `typeTag`,
`enumTag` here).  Note that `_validate_constraints` reads only
`min_length`, `max_length`, `enum_values`, `min` and `max`; the `type`
and `enum` keys occurring in the chat-history rules are never read. -/
structure Constraints where
  min_length : Option Nat := none
  max_length : Option Nat := none
  enum_values : Option (List String) := none
  intMin : Option Int := none
  intMax : Option Int := none
  typeTag : Option String := none
  enumTag : Option (List String) := none

structure ToolSchema where
  required_fields : List String
  optional_fields : List String
  field_types : List (String × String)
  constraints : List (String × Constraints)

/-- `_initialize_tool_schemas`. -/
def toolSchemas (name : String) : Option ToolSchema :=
  if name = "note_maker" then some {
    required_fields := ["user_info", "chat_history", "topic", "subject", "note_taking_style"],
    optional_fields := ["include_examples", "include_analogies"],
    field_types := [("user_info", "object"), ("chat_history", "array"), ("topic", "string"),
                    ("subject", "string"), ("note_taking_style", "enum"),
                    ("include_examples", "boolean"), ("include_analogies", "boolean")],
    constraints := [("topic", { min_length := some 1, max_length := some 200 }),
                    ("subject", { min_length := some 1, max_length := some 100 }),
                    ("note_taking_style", { enum_values := some ["outline", "bullet_points", "narrative", "structured"] }),
                    ("include_examples", { typeTag := some "boolean" }),
                    ("include_analogies", { typeTag := some "boolean" })] }
  else if name = "flashcard_generator" then some {
    required_fields := ["user_info", "topic", "count", "difficulty", "subject"],
    optional_fields := ["include_examples"],
    field_types := [("user_info", "object"), ("topic", "string"), ("count", "integer"),
                    ("difficulty", "enum"), ("subject", "string"), ("include_examples", "boolean")],
    constraints := [("topic", { min_length := some 1, max_length := some 200 }),
                    ("count", { intMin := some 1, intMax := some 20 }),
                    ("difficulty", { enum_values := some ["easy", "medium", "hard"] }),
                    ("subject", { min_length := some 1, max_length := some 100 }),
                    ("include_examples", { typeTag := some "boolean" })] }
  else if name = "concept_explainer" then some {
    required_fields := ["user_info", "chat_history", "concept_to_explain", "current_topic", "desired_depth"],
    optional_fields := [],
    field_types := [("user_info", "object"), ("chat_history", "array"),
                    ("concept_to_explain", "string"), ("current_topic", "string"),
                    ("desired_depth", "enum")],
    constraints := [("concept_to_explain", { min_length := some 1, max_length := some 200 }),
                    ("current_topic", { min_length := some 1, max_length := some 200 }),
                    ("desired_depth", { enum_values := some ["basic", "intermediate", "advanced", "comprehensive"] })] }
  else none

/-- `_initialize_validation_rules()["user_info"]`. -/
def userInfoRequired : List String :=
  ["user_id", "name", "grade_level", "learning_style_summary",
   "emotional_state_summary", "mastery_level_summary"]

def userInfoConstraints : List (String × Constraints) :=
  [("user_id", { typeTag := some "string", min_length := some 1 }),
   ("name", { typeTag := some "string", min_length := some 1, max_length := some 100 }),
   ("grade_level", { typeTag := some "string", min_length := some 1 }),
   ("learning_style_summary", { typeTag := some "string", min_length := some 1, max_length := some 500 }),
   ("emotional_state_summary", { typeTag := some "string", min_length := some 1, max_length := some 500 }),
   ("mastery_level_summary", { typeTag := some "string", min_length := some 1, max_length := some 500 })]

/-- `_initialize_validation_rules()["chat_history"]["item_constraints"]["role"]`:
the permitted roles sit under key `enum`, which the constraint checker
never reads. -/
def roleConstraints : Constraints :=
  { typeTag := some "string", enumTag := some ["user", "assistant"] }

def contentConstraints : Constraints :=
  { typeTag := some "string", min_length := some 1, max_length := some 2000 }

/-- `_validate_type`. -/
def validateType (v : Value) (expected : String) : Bool :=
  if expected = "enum" then v.isStr
  else if expected = "string" then v.isStr
  else if expected = "integer" then v.isInstInt
  else if expected = "boolean" then v.isBool
  else if expected = "array" then v.isArr
  else if expected = "object" then v.isObj
  else false

/-- `_validate_constraints`.  Mirrors the `isinstance` dispatch: strings
take the string branch; ints *and bools* take the int branch (a Python
`bool` is an `int`, so the final `isinstance(value, bool)` branch is
unreachable); every other value passes with no errors. -/
def validateConstraints (v : Value) (c : Constraints) : List VError :=
  match v with
  | .str s =>
      (match c.min_length with
       | some m => if s.length < m then
           [⟨"constraint_violation", "string_length",
             s!"String too short (minimum: {m})", "MIN_LENGTH_VIOLATION"⟩] else []
       | none => []) ++
      (match c.max_length with
       | some m => if s.length > m then
           [⟨"constraint_violation", "string_length",
             s!"String too long (maximum: {m})", "MAX_LENGTH_VIOLATION"⟩] else []
       | none => []) ++
      (match c.enum_values with
       | some vals => if s ∉ vals then
           [⟨"invalid_value", "enum_value",
             s!"Invalid enum value. Must be one of: {vals}", "INVALID_ENUM_VALUE"⟩] else []
       | none => [])
  | .int _ | .bool _ =>
      (match c.intMin with
       | some m => if v.asInt < m then
           [⟨"constraint_violation", "integer_value",
             s!"Integer too small (minimum: {m})", "MIN_VALUE_VIOLATION"⟩] else []
       | none => []) ++
      (match c.intMax with
       | some m => if v.asInt > m then
           [⟨"constraint_violation", "integer_value",
             s!"Integer too large (maximum: {m})", "MAX_VALUE_VIOLATION"⟩] else []
       | none => [])
  | _ => []

/-- `_validate_field` (the `errors` list; `is_valid` is its emptiness). -/
def validateField (fieldName : String) (v : Value) (schema : ToolSchema) : List VError :=
  match alookup schema.field_types fieldName with
  | none => [⟨"schema_mismatch", fieldName,
      s!"Field '{fieldName}' not defined in schema", "UNDEFINED_FIELD"⟩]
  | some expected =>
      (if validateType v expected then [] else
        [⟨"invalid_type", fieldName,
          s!"Field '{fieldName}' must be of type {expected}", "INVALID_TYPE"⟩]) ++
      validateConstraints v ((alookup schema.constraints fieldName).getD {})

/-- `_validate_user_info`, including the places where the Python loop
raises: `field not in user_info` raises `TypeError` when `user_info` is an
int, bool or `None`; for a string it is a substring test and the ensuing
`user_info[field]` indexing raises; for a list it is membership and the
indexing raises likewise.  The raise is modelled as `Except.error ()` and
is caught by `validate_tool_request`'s handler. -/
def userInfoCheck (v : Value) : Except Unit (List VError) :=
  match v with
  | .obj fs => .ok (userInfoRequired.flatMap (fun f =>
      match alookup fs f with
      | none => [⟨"missing_required", s!"user_info.{f}",
          s!"Required field 'user_info.{f}' is missing", "MISSING_USER_INFO_FIELD"⟩]
      | some w => validateConstraints w ((alookup userInfoConstraints f).getD {})))
  | .str s =>
      if userInfoRequired.any (fun f => strContainsSub s f) then .error ()
      else .ok (userInfoRequired.map (fun f =>
        ⟨"missing_required", s!"user_info.{f}",
         s!"Required field 'user_info.{f}' is missing", "MISSING_USER_INFO_FIELD"⟩))
  | .arr xs =>
      -- Python list membership compares with `==`; a hit leads to the
      -- raising string-keyed indexing `user_info[field]`.
      if userInfoRequired.any (fun f => xs.any (fun x =>
          match x with | .str t => t = f | _ => false)) then .error ()
      else .ok (userInfoRequired.map (fun f =>
        ⟨"missing_required", s!"user_info.{f}",
         s!"Required field 'user_info.{f}' is missing", "MISSING_USER_INFO_FIELD"⟩))
  | _ => .error ()

end SchemaValidator

namespace SchemaValidator

/-- `_initialize_validation_rules()["chat_history"]["array_constraints"]`. -/
def chatMinLen : Nat := 0
def chatMaxLen : Nat := 50

def chatLenErrors (n : Nat) : List VError :=
  (if n < chatMinLen then
    [⟨"constraint_violation", "chat_history.length",
      s!"Chat history too short (minimum: {chatMinLen})", "MIN_ARRAY_LENGTH_VIOLATION"⟩]
   else []) ++
  (if n > chatMaxLen then
    [⟨"constraint_violation", "chat_history.length",
      s!"Chat history too long (maximum: {chatMaxLen})", "MAX_ARRAY_LENGTH_VIOLATION"⟩]
   else [])

/-- Per-message checks of `_validate_chat_history`'s loop body. -/
def chatMessageErrors (i : Nat) (m : Value) : List VError :=
  match m with
  | .obj fs =>
      (match alookup fs "role" with
       | none => [⟨"missing_required", s!"chat_history[{i}].role",
           s!"Message {i} missing required 'role' field", "MISSING_ROLE"⟩]
       | some rv => validateConstraints rv roleConstraints) ++
      (match alookup fs "content" with
       | none => [⟨"missing_required", s!"chat_history[{i}].content",
           s!"Message {i} missing required 'content' field", "MISSING_CONTENT"⟩]
       | some cv => validateConstraints cv contentConstraints)
  | _ => [⟨"invalid_type", s!"chat_history[{i}]",
      s!"Message {i} must be an object", "INVALID_MESSAGE_TYPE"⟩]

/-- `_validate_chat_history`.  `len(...)` raises `TypeError` for ints,
bools and `None`; iterating a string yields its characters (each a
non-dict, so `INVALID_MESSAGE_TYPE`), iterating a dict yields its keys
(likewise non-dicts). -/
def chatHistoryCheck (v : Value) : Except Unit (List VError) :=
  match v with
  | .arr msgs => .ok (chatLenErrors msgs.length ++
      (msgs.enum.flatMap (fun p => chatMessageErrors p.1 p.2)))
  | .str s => .ok (chatLenErrors s.length ++
      (s.data.enum.map (fun p =>
        ⟨"invalid_type", s!"chat_history[{p.1}]",
         s!"Message {p.1} must be an object", "INVALID_MESSAGE_TYPE"⟩)))
  | .obj fs => .ok (chatLenErrors fs.length ++
      (fs.enum.map (fun p =>
        ⟨"invalid_type", s!"chat_history[{p.1}]",
         s!"Message {p.1} must be an object", "INVALID_MESSAGE_TYPE"⟩)))
  | _ => .error ()

structure ValidationResult where
  is_valid : Bool
  errors : List VError
  warnings : List String
  validated_data : Option (String → Option Value)

/-- Errors of the required-fields loop of `validate_tool_request`
(`errors.extend` on an empty `field_validation` list is a no-op, so the
loop's error output is exactly this concatenation). -/
def requiredErrors (schema : ToolSchema) (params : String → Option Value) : List VError :=
  schema.required_fields.flatMap (fun f =>
    match params f with
    | none => [⟨"missing_required", f,
        s!"Required field '{f}' is missing", "MISSING_REQUIRED"⟩]
    | some v => validateField f v schema)

/-- Errors of the optional-fields loop. -/
def optionalErrors (schema : ToolSchema) (params : String → Option Value) : List VError :=
  schema.optional_fields.flatMap (fun f =>
    match params f with
    | none => []
    | some v => validateField f v schema)

/-- The `validated_data` dict built by the two loops: a schema field that
is present and individually valid keeps its value; nothing else is ever
inserted. -/
def validatedData (schema : ToolSchema) (params : String → Option Value) :
    String → Option Value := fun k =>
  if k ∈ schema.required_fields ∨ k ∈ schema.optional_fields then
    match params k with
    | some v => if (validateField k v schema).isEmpty then some v else none
    | none => none
  else none

/-- The body of `validate_tool_request`'s `try` block for a known tool:
the ordered error list, or `error ()` when a deep structural check
raises. -/
def validateKnown (schema : ToolSchema) (params : String → Option Value) :
    Except Unit (List VError) :=
  let e1 := requiredErrors schema params ++ optionalErrors schema params
  match (match params "user_info" with
         | none => Except.ok []
         | some v => userInfoCheck v) with
  | .error e => .error e
  | .ok e2 =>
      match (match params "chat_history" with
             | none => Except.ok []
             | some v => chatHistoryCheck v) with
      | .error e => .error e
      | .ok e3 => .ok (e1 ++ e2 ++ e3)

/-- `validate_tool_request`. -/
def validateToolRequest (toolName : String) (params : String → Option Value) :
    ValidationResult :=
  match toolSchemas toolName with
  | none =>
      { is_valid := false,
        errors := [⟨"schema_mismatch", "tool_name",
          s!"Unknown tool: {toolName}", "UNKNOWN_TOOL"⟩],
        warnings := [], validated_data := none }
  | some schema =>
      match validateKnown schema params with
      | .error _ =>
          { is_valid := false,
            errors := [⟨"schema_mismatch", "general",
              "Validation failed: TypeError", "VALIDATION_ERROR"⟩],
            warnings := [], validated_data := none }
      | .ok errs =>
          { is_valid := errs.isEmpty,
            errors := errs,
            warnings := [],
            validated_data := if errs.isEmpty then some (validatedData schema params) else none }

end SchemaValidator

/-! ### `SchemaValidator.sanitize_input` -/

namespace SchemaValidator

mutual

/-- `sanitize_input`: rebuilds the dict entry by entry. -/
def sanitizeInput : List (String × Value) → List (String × Value)
  | [] => []
  | (k, v) :: t => (k, sanitizeEntry v) :: sanitizeInput t

/-- One `sanitize_input` dict entry: strings are stripped and de-nulled,
dicts recursed into, lists rebuilt element-wise, everything else kept. -/
def sanitizeEntry : Value → Value
  | .str s => .str (cleanStr s)
  | .obj fs => .obj (sanitizeInput fs)
  | .arr xs => .arr (sanitizeList xs)
  | v => v

/-- The list comprehension inside `sanitize_input`: only dict elements
are recursed into; every other element — strings included — is kept
verbatim. -/
def sanitizeList : List Value → List Value
  | [] => []
  | .obj fs :: t => .obj (sanitizeInput fs) :: sanitizeList t
  | x :: t => x :: sanitizeList t

end

end SchemaValidator

/-! ### Context analyzer (`context_analyzer.py`) -/

namespace ContextAnalyzer

/-- `_initialize_intent_patterns`, in declaration order.  All patterns are
literal strings, so `re.search` on the lower-cased message is substring
containment. -/
def noteMakingPatterns : List String :=
  ["take notes", "make notes", "note taking", "summarize",
   "outline", "organize", "write down", "document"]

def flashcardPatterns : List String :=
  ["flashcards", "flash cards", "memorize", "study cards",
   "practice", "quiz", "test", "review"]

def conceptPatterns : List String :=
  ["explain", "understand", "what is", "how does",
   "tell me about", "describe", "clarify", "help me understand"]

def quizPatterns : List String :=
  ["quiz", "test", "questions", "practice problems",
   "exam", "assessment", "challenge"]

def intentPatterns : List (String × List String) :=
  [("note_making", noteMakingPatterns),
   ("flashcard_generation", flashcardPatterns),
   ("concept_explanation", conceptPatterns),
   ("quiz_generation", quizPatterns)]

/-- Pattern score of one category: matches / total patterns. -/
def categoryScore (patterns : List String) (messageLower : String) : ℚ :=
  ((patterns.filter (fun p => strContainsSub messageLower p)).length : ℚ) / (patterns.length : ℚ)

/-- Python `max(items, key=...)`: the first item whose key is maximal;
later items replace the best only when strictly greater. -/
def bestIntent : List (String × ℚ) → String × ℚ → String × ℚ
  | [], best => best
  | x :: t, best => bestIntent t (if best.2 < x.2 then x else best)

/-- `_detect_intent`.  The LLM fallback `_llm_intent_detection` is an
external capability: `llmRaw` is its stripped, lower-cased reply (`none`
when the call errs), vetted against the known category names as in the
source. -/
def detectIntent (message : String) (llmRaw : Option String) : String × ℚ :=
  let messageLower := pyLower message
  let scores := intentPatterns.map (fun p => (p.1, categoryScore p.2 messageLower))
  match scores with
  | [] => ("", 0)
  | s :: t =>
      let best := bestIntent t s
      if best.2 < 1/2 then
        match llmRaw with
        | some r => if (intentPatterns.map Prod.fst).contains r then (r, 4/5) else best
        | none => best
      else best

/-- `_infer_difficulty`: difficulty from emotional state and mastery
level.  `mastery_level and mastery_level >= k` is Python truthiness:
`None` and `0` are falsy. -/
def truthyGe (ml : Option Int) (k : Int) : Bool :=
  match ml with
  | some m => m ≠ 0 && k ≤ m
  | none => false

def inferDifficulty (es : Option EmotionalState) (ml : Option Int) : String :=
  if es = some .confused then "easy"
  else if es = some .anxious then "easy"
  else if es = some .tired then "easy"
  else if es = some .focused then
    (if truthyGe ml 7 then "hard"
     else if truthyGe ml 4 then "medium"
     else "easy")
  else
    match ml with
    | some m =>
        if m ≠ 0 then (if m ≤ 3 then "easy" else if m ≤ 6 then "medium" else "hard")
        else "medium"
    | none => "medium"

/-- The count-suffix words of the first `count` pattern
`(\d+)\s*(?:questions?|cards?|notes?|items?)` (the optional plural `s`
does not affect matching, so the singular stems suffice). -/
def countWords1 : List String := ["question", "card", "note", "item"]

/-- Suffix alternatives of `(\d+)\s*(?:of|for)`. -/
def countWords2 : List String := ["of", "for"]

/-- Suffix alternatives of `(\d+)\s*(?:more|additional)`. -/
def countWords3 : List String := ["more", "additional"]

/-- Try to match `(\d+)\s*(?:w₁|w₂|...)` at the head of `cs`, returning
the captured integer.  `\d+` is greedy and, since no suffix word starts
with a digit or whitespace, the maximal digit run is the only candidate;
likewise for the greedy `\s*`. -/
def tryCountAt (words : List String) (cs : List Char) : Option Nat :=
  let run := cs.takeWhile Char.isDigit
  if run.isEmpty then none
  else
    let rest := (cs.dropWhile Char.isDigit).dropWhile isPySpace
    if words.any (fun w => w.data.isPrefixOf rest) then
      some (run.foldl (fun acc c => acc * 10 + (c.toNat - '0'.toNat)) 0)
    else none

/-- `re.search`: try the pattern at every position, leftmost match wins. -/
def searchCount (words : List String) : List Char → Option Nat
  | [] => tryCountAt words []
  | c :: t =>
      match tryCountAt words (c :: t) with
      | some n => some n
      | none => searchCount words t

/-- `_extract_count`: first pattern with a match anywhere wins, and the
captured integer is clamped into `[1, 20]`. -/
def extractCount (message : String) : Option Nat :=
  match searchCount countWords1 message.data with
  | some n => some (min (max n 1) 20)
  | none =>
      match searchCount countWords2 message.data with
      | some n => some (min (max n 1) 20)
      | none =>
          match searchCount countWords3 message.data with
          | some n => some (min (max n 1) 20)
          | none => none

/-- `_map_intent_to_tool`. -/
def mapIntentToTool (intentType : String) : String :=
  if intentType = "note_making" then "note_maker"
  else if intentType = "flashcard_generation" then "flashcard_generator"
  else if intentType = "concept_explanation" then "concept_explainer"
  else if intentType = "quiz_generation" then "quiz_generator"
  else "unknown"

end ContextAnalyzer

/-! ### Parameter extractor (`parameter_extractor.py`) -/

namespace ParameterExtractor

structure ParameterExtractionResult where
  success : Bool
  extracted_parameters : List (String × Value)
  missing_parameters : List String
  confidence_scores : List (String × ℚ)
  extraction_method : String

/-- `_initialize_tool_schemas`: required and optional field names per tool
(the prose `parameter_descriptions` are not behaviour-relevant). -/
def extractorSchema (tool : String) : Option (List String × List String) :=
  if tool = "note_maker" then
    some (["user_info", "chat_history", "topic", "subject", "note_taking_style"],
          ["include_examples", "include_analogies"])
  else if tool = "flashcard_generator" then
    some (["user_info", "topic", "count", "difficulty", "subject"],
          ["include_examples"])
  else if tool = "concept_explainer" then
    some (["user_info", "chat_history", "concept_to_explain", "current_topic", "desired_depth"],
          [])
  else none

/-- Count inference of `_infer_flashcard_params` (`if context.mastery_level:`
is truthiness: `None` and `0` fall to the default 10). -/
def flashcardCount (ml : Option Int) : Int :=
  match ml with
  | some m =>
      if m ≠ 0 then (if m ≤ 3 then 5 else if m ≤ 6 then 10 else 15) else 10
  | none => 10

/-- Difficulty inference of `_infer_flashcard_params`: note that `tired`
and the mastery-band defaults of `_infer_difficulty` are absent here —
everything that is not confused/anxious or focused-with-mastery≥7 gets
`"medium"`. -/
def flashcardDifficulty (es : Option EmotionalState) (ml : Option Int) : String :=
  if es = some .confused ∨ es = some .anxious then "easy"
  else if es = some .focused ∧ ContextAnalyzer.truthyGe ml 7 = true then "hard"
  else "medium"

def inferFlashcardParams (ctx : ConversationContext) : List (String × Value) :=
  aset (aset (aset [] "count" (.int (flashcardCount ctx.mastery_level)))
    "difficulty" (.str (flashcardDifficulty ctx.emotional_state ctx.mastery_level)))
    "include_examples" (.bool true)

def inferNoteStyle (ctx : ConversationContext) : String :=
  let ls := pyLower ctx.user_info.learning_style_summary
  if strContainsSub ls "outline" then "outline"
  else if strContainsSub ls "bullet" then "bullet_points"
  else if strContainsSub ls "narrative" then "narrative"
  else "structured"

def inferNoteMakerParams (ctx : ConversationContext) : List (String × Value) :=
  let p := aset [] "note_taking_style" (.str (inferNoteStyle ctx))
  -- the `visual` branch sets both flags true; `direct` and the final
  -- `else` branch both set (true, false)
  if ctx.teaching_style = some .visual then
    aset (aset p "include_examples" (.bool true)) "include_analogies" (.bool true)
  else
    aset (aset p "include_examples" (.bool true)) "include_analogies" (.bool false)

def conceptDepth (es : Option EmotionalState) (ml : Option Int) : String :=
  if es = some .confused ∨ es = some .anxious then "basic"
  else
    match ml with
    | some m =>
        if m ≠ 0 then
          (if m ≤ 3 then "basic" else if m ≤ 6 then "intermediate"
           else if m ≤ 8 then "advanced" else "comprehensive")
        else "intermediate"
    | none => "intermediate"

def inferConceptExplainerParams (ctx : ConversationContext) : List (String × Value) :=
  aset [] "desired_depth" (.str (conceptDepth ctx.emotional_state ctx.mastery_level))

/-- `_infer_from_context`: always sets `user_info` and `chat_history`,
then merges the tool-specific inference. -/
def inferFromContext (ctx : ConversationContext) (tool : String) : List (String × Value) :=
  let params := aset (aset [] "user_info" ctx.user_info.toValue)
    "chat_history" (.arr (ctx.chat_history.map ChatMessage.toValue))
  if tool = "note_maker" then aupdate params (inferNoteMakerParams ctx)
  else if tool = "flashcard_generator" then aupdate params (inferFlashcardParams ctx)
  else if tool = "concept_explainer" then aupdate params (inferConceptExplainerParams ctx)
  else params

/-- `_assign_default_values`. -/
def assignDefaultValues (tool : String) : List (String × Value) :=
  if tool = "note_maker" then
    [("include_examples", .bool true), ("include_analogies", .bool false)]
  else if tool = "flashcard_generator" then
    [("count", .int 10), ("include_examples", .bool true)]
  else []

/-- Methods 1–3 of `_extract_with_multiple_methods`: three `dict.update`
calls, each overwriting what earlier methods wrote.  `llm` is the dict the
external text-to-structured-data capability returned (empty on any
failure). -/
def mergedBeforeDefaults (intent : EducationalIntent) (ctx : ConversationContext)
    (tool : String) (llm : List (String × Value)) : List (String × Value) :=
  aupdate (aupdate (aupdate [] intent.extracted_parameters) llm) (inferFromContext ctx tool)

/-- Method 4: defaults fill only keys still absent. -/
def applyDefaults (params defaults : List (String × Value)) : List (String × Value) :=
  defaults.foldl (fun p kv => if (alookup p kv.1).isNone then aset p kv.1 kv.2 else p) params

/-- `_extract_with_multiple_methods`. -/
def extractWithMultipleMethods (intent : EducationalIntent) (ctx : ConversationContext)
    (tool : String) (llm : List (String × Value)) : List (String × Value) :=
  applyDefaults (mergedBeforeDefaults intent ctx tool llm) (assignDefaultValues tool)

/-- `_validate_parameters`: required fields present with non-`None` value
are kept, the rest are reported missing; present optional fields are
copied through (a present-but-`None` optional is copied as-is). -/
def validateParameters (params : List (String × Value)) (req opt : List String) :
    List (String × Value) × List String :=
  let rp := req.foldl (fun (acc : List (String × Value) × List String) p =>
    match alookup params p with
    | some v => if !v.isNull then (aset acc.1 p v, acc.2) else (acc.1, acc.2 ++ [p])
    | none => (acc.1, acc.2 ++ [p])) ([], [])
  (opt.foldl (fun acc p =>
    match alookup params p with
    | some v => aset acc p v
    | none => acc) rp.1, rp.2)

/-- Python truthiness of a value (`0.9 if value else 0.3`). -/
def Value.truthy : Value → Bool
  | .str s => ¬s.isEmpty
  | .int n => n ≠ 0
  | .bool b => b
  | .null => false
  | .arr xs => ¬xs.isEmpty
  | .obj fs => ¬fs.isEmpty

/-- `_calculate_confidence_scores`. -/
def calculateConfidenceScores (params : List (String × Value)) : List (String × ℚ) :=
  params.map (fun kv =>
    (kv.1,
      if kv.1 = "user_info" ∨ kv.1 = "chat_history" then 1
      else if kv.1 = "topic" ∨ kv.1 = "subject" then
        (if Value.truthy kv.2 then 9/10 else 3/10)
      else if kv.1 = "difficulty" ∨ kv.1 = "note_taking_style" ∨ kv.1 = "desired_depth" then 7/10
      else if kv.1 = "count" ∨ kv.1 = "include_examples" ∨ kv.1 = "include_analogies" then 1/2
      else 3/5))

/-- `extract_parameters`: unknown tool → failure with empty collections;
otherwise merge, validate, score. -/
def extractParameters (intent : EducationalIntent) (ctx : ConversationContext)
    (llm : List (String × Value)) : ParameterExtractionResult :=
  match extractorSchema intent.suggested_tool with
  | none =>
      { success := false, extracted_parameters := [], missing_parameters := [],
        confidence_scores := [], extraction_method := "error" }
  | some (req, opt) =>
      let extracted := extractWithMultipleMethods intent ctx intent.suggested_tool llm
      let vp := validateParameters extracted req opt
      { success := vp.2.isEmpty,
        extracted_parameters := vp.1,
        missing_parameters := vp.2,
        confidence_scores := calculateConfidenceScores vp.1,
        extraction_method := "hybrid" }

/-- `_ask_for_parameter`. -/
def askForParameter (p : String) (ctx : ConversationContext) : String :=
  if p = "topic" then
    s!"What specific topic would you like to focus on, {ctx.user_info.name}?"
  else if p = "subject" then
    s!"What subject area is this related to, {ctx.user_info.name}?"
  else s!"Please specify {p}"

/-- `_get_intelligent_default` (unknown parameter → `None`). -/
def getIntelligentDefault (p : String) : Value :=
  if p = "note_taking_style" then .str "structured"
  else if p = "difficulty" then .str "medium"
  else if p = "count" then .int 10
  else if p = "desired_depth" then .str "intermediate"
  else if p = "include_examples" then .bool true
  else if p = "include_analogies" then .bool false
  else .null

/-- `fill_missing_parameters`. -/
def fillMissingParameters (missing : List String) (ctx : ConversationContext) :
    List (String × Value) :=
  missing.foldl (fun acc p =>
    if p = "topic" ∨ p = "subject" then aset acc p (.str (askForParameter p ctx))
    else aset acc p (getIntelligentDefault p)) []

end ParameterExtractor

/-! ### Tool orchestrator (`tool_orchestrator.py`) -/

namespace Orchestrator

/-- The fields of a non-empty, well-formed JSON response body that the
client reads (`error` / `error_code`, as strings when present; bodies
whose error fields hold non-string values are outside the modelled scope
— pydantic would stringify them without changing the control flow). -/
structure JsonBody where
  payload : List (String × Value) := []
  errorField : Option String := none
  errorCodeField : Option String := none

/-- Outcome of the single outbound `httpx` POST: the body of a received
response is described by `empty` (no content) together with the
`BodyParse` argument of the client. -/
inductive TransportOutcome where
  | timeout
  | connectError
  | otherExc
  | response (status : Nat) (empty : Bool)

/-- The endpoint table built in `__init__` from config defaults. -/
def toolEndpoints (tool : String) : Option String :=
  if tool = "note_maker" then some "http://localhost:8001"
  else if tool = "flashcard_generator" then some "http://localhost:8002"
  else if tool = "concept_explainer" then some "http://localhost:8003"
  else none

/-- `_call_educational_tool`, with the number of outbound requests made.
`response.json()` raises on an empty or malformed body; a raise inside
the `try` is caught by the final generic handler (`CALL_ERROR`).  A
malformed body is modelled as `response` with `empty := false` and a
`payload` carrying no parse: we split it out as a separate outcome. -/
inductive BodyParse where
  | parses (j : JsonBody)
  | fails

def callEducationalTool (toolName : String) (outcome : TransportOutcome)
    (parse : BodyParse) : ToolResponse × Nat :=
  match toolEndpoints toolName with
  | none =>
      ({ success := false, error := some s!"Unknown tool: {toolName}",
         error_code := some "UNKNOWN_TOOL" }, 0)
  | some _ =>
      (match outcome with
       | .timeout =>
           { success := false, error := some "Tool request timed out",
             error_code := some "TIMEOUT" }
       | .connectError =>
           { success := false,
             error := some s!"Could not connect to {toolName} service",
             error_code := some "CONNECTION_ERROR" }
       | .otherExc =>
           { success := false, error := some "Tool call failed: Exception",
             error_code := some "CALL_ERROR" }
       | .response status empty =>
           if status = 200 then
             -- `data = response.json()` raises on empty/malformed content
             if empty then
               { success := false, error := some "Tool call failed: Exception",
                 error_code := some "CALL_ERROR" }
             else
               match parse with
               | .parses j => { success := true, data := some j.payload }
               | .fails =>
                   { success := false, error := some "Tool call failed: Exception",
                     error_code := some "CALL_ERROR" }
           else
             -- `error_data = response.json() if response.content else {}`
             if empty then
               { success := false, error := some s!"HTTP {status}",
                 error_code := some "HTTP_ERROR" }
             else
               match parse with
               | .parses j =>
                   { success := false,
                     error := some (j.errorField.getD s!"HTTP {status}"),
                     error_code := some (j.errorCodeField.getD "HTTP_ERROR") }
               | .fails =>
                   { success := false, error := some "Tool call failed: Exception",
                     error_code := some "CALL_ERROR" }, 1)

end Orchestrator

namespace Orchestrator

/-- The LangGraph workflow state (`OrchestratorState`), after the
conversation-analysis node has stored an intent. -/
structure OState where
  educational_intent : Option EducationalIntent
  extracted_parameters : List (String × Value)
  tool_request : Option ToolRequest
  tool_response : Option ToolResponse
  orchestrator_response : Option OrchestratorResponse
  error_message : Option String
  workflow_step : String

/-- `_extract_parameters_node`.  `llm` is the external capability's
contribution to extraction (empty on failure). -/
def extractParametersNode (ctx : ConversationContext) (llm : List (String × Value))
    (s : OState) : OState :=
  match s.educational_intent with
  | none =>
      { s with error_message := some "No educational intent identified",
               workflow_step := "error" }
  | some intent =>
      let r := ParameterExtractor.extractParameters intent ctx llm
      if r.success then
        { s with extracted_parameters := r.extracted_parameters,
                 workflow_step := "parameters_extracted" }
      else
        -- `{**extraction_result.extracted_parameters, **filled_params}`
        let filled := ParameterExtractor.fillMissingParameters r.missing_parameters ctx
        { s with extracted_parameters := aupdate r.extracted_parameters filled,
                 workflow_step := "parameters_filled" }

/-- `_validate_request_node`: `if not intent or not params` — an absent
intent or an *empty* parameter dict routes to the error step. -/
def validateRequestNode (ctx : ConversationContext) (s : OState) : OState :=
  match s.educational_intent with
  | none =>
      { s with error_message := some "Missing intent or parameters",
               workflow_step := "error" }
  | some intent =>
      if s.extracted_parameters.isEmpty then
        { s with error_message := some "Missing intent or parameters",
                 workflow_step := "error" }
      else
        let req : ToolRequest :=
          { tool_name := intent.suggested_tool,
            parameters := s.extracted_parameters,
            user_info := ctx.user_info,
            chat_history := ctx.chat_history }
        { s with tool_request := some req,
                 workflow_step := "request_validated" }

/-- `_should_execute_tool`. -/
def shouldExecuteTool (s : OState) : String :=
  if s.workflow_step = "error" then "error" else "execute"

/-- `_execute_tool_node` (the client itself never raises, so the node's
`except` is unreachable). -/
def executeToolNode (outcome : TransportOutcome) (parse : BodyParse) (s : OState) : OState :=
  match s.tool_request with
  | none =>
      { s with error_message := some "No tool request to execute",
               workflow_step := "error" }
  | some req =>
      { s with tool_response := some (callEducationalTool req.tool_name outcome parse).1,
               workflow_step := "tool_executed" }

/-- `_format_response_node`. -/
def formatResponseNode (ctx : ConversationContext) (s : OState) : OState :=
  let resp : OrchestratorResponse :=
    { success := (match s.tool_response with | some r => r.success | none => false),
      tool_response := s.tool_response,
      educational_intent := s.educational_intent,
      error_message := (match s.tool_response with
        | some r => if r.success then none else r.error
        | none => none),
      conversation_context := some ctx }
  { s with orchestrator_response := some resp,
           workflow_step := "response_formatted" }

/-- `_handle_error_node`.  `state.get("error_message", ...)` finds the
key (the state dict always carries it), so the stored message — possibly
`None` — is passed through unchanged. -/
def handleErrorNode (ctx : ConversationContext) (s : OState) : OState :=
  let resp : OrchestratorResponse :=
    { success := false,
      error_message := s.error_message,
      educational_intent := s.educational_intent,
      conversation_context := some ctx }
  { s with orchestrator_response := some resp,
           workflow_step := "error_handled" }

/-- The compiled workflow from the context-analyzed state on:
extract → validate → (execute → format | handle_error), plus
`orchestrate`'s fallback response when no node stored one.  The second
component records whether the execute node ran. -/
def runFromIntent (intent : EducationalIntent) (ctx : ConversationContext)
    (llm : List (String × Value)) (outcome : TransportOutcome) (parse : BodyParse) :
    OrchestratorResponse × Bool :=
  let s0 : OState :=
    { educational_intent := some intent, extracted_parameters := [],
      tool_request := none, tool_response := none, orchestrator_response := none,
      error_message := none, workflow_step := "context_analyzed" }
  let s2 := validateRequestNode ctx (extractParametersNode ctx llm s0)
  if shouldExecuteTool s2 = "execute" then
    ((formatResponseNode ctx (executeToolNode outcome parse s2)).orchestrator_response.getD
       { success := false, error_message := some "Workflow execution failed" }, true)
  else
    ((handleErrorNode ctx s2).orchestrator_response.getD
       { success := false, error_message := some "Workflow execution failed" }, false)

end Orchestrator

/-! ## Claim theorems -/

/-! ### C3 — difficulty inference rule -/

/-- The difficulty-inference rule as the specification words it
(spec-side definition, for comparison with the code):
confused/anxious/tired → easy; focused with mastery ≥ 7 → hard,
mastery 4–6 → medium, else → easy; absent emotional state: mastery ≤ 3 →
easy, 4–6 → medium, else → hard; absent both → medium. -/
def specDifficultyRule (es : Option EmotionalState) (ml : Option Int) : String :=
  match es with
  | some .confused => "easy"
  | some .anxious => "easy"
  | some .tired => "easy"
  | some .focused =>
      match ml with
      | some m => if 7 ≤ m then "hard" else if 4 ≤ m ∧ m ≤ 6 then "medium" else "easy"
      | none => "easy"
  | none =>
      match ml with
      | some m => if m ≤ 3 then "easy" else if m ≤ 6 then "medium" else "hard"
      | none => "medium"

/-- C3 counterexample: the claim says the rule holds in the extractor's
flashcard contextual pass as well, with tired → easy regardless of
mastery; but `_infer_flashcard_params` maps tired (and mastery 5) to
"medium" while the stated rule gives "easy". -/
theorem c3_counterexample :
    ParameterExtractor.flashcardDifficulty (some .tired) (some 5) = "medium" ∧
    specDifficultyRule (some .tired) (some 5) = "easy" ∧
    ("medium" : String) ≠ "easy" :=
  ⟨rfl, rfl, by decide⟩

/-- C3 (amended): over contexts with mastery in the model's 1–10 range,
the classifier's `_infer_difficulty` satisfies the stated rule exactly;
the extractor's flashcard pass instead uses the reduced rule "easy iff
confused or anxious, hard iff focused with mastery ≥ 7, otherwise medium"
(so tired, and every mastery band without focus, yields medium there). -/
theorem c3_difficulty_rule (es : Option EmotionalState) (ml : Option Int)
    (hml : ∀ m, ml = some m → 1 ≤ m ∧ m ≤ 10) :
    ContextAnalyzer.inferDifficulty es ml = specDifficultyRule es ml ∧
    (ParameterExtractor.flashcardDifficulty es ml = "easy" ↔
      (es = some .confused ∨ es = some .anxious)) ∧
    (ParameterExtractor.flashcardDifficulty es ml = "hard" ↔
      (es = some .focused ∧ ∃ m, ml = some m ∧ 7 ≤ m)) ∧
    (ParameterExtractor.flashcardDifficulty es ml = "medium" ∨
     ParameterExtractor.flashcardDifficulty es ml = "easy" ∨
     ParameterExtractor.flashcardDifficulty es ml = "hard") := by
  rcases es with _ | e
  · rcases ml with _ | m
    · exact ⟨rfl, by simp +decide [ParameterExtractor.flashcardDifficulty],
        by simp +decide [ParameterExtractor.flashcardDifficulty], by left; rfl⟩
    · have hm := hml m rfl
      have hm0 : m ≠ 0 := by omega
      refine ⟨?_, ?_, ?_, ?_⟩
      · simp only [ContextAnalyzer.inferDifficulty, specDifficultyRule]
        simp +decide [hm0]
      · simp +decide [ParameterExtractor.flashcardDifficulty]
      · simp +decide [ParameterExtractor.flashcardDifficulty]
      · left; rfl
  · rcases ml with _ | m
    · cases e
      · -- focused, no mastery
        refine ⟨rfl, ?_, ?_, ?_⟩ <;>
          simp +decide [ParameterExtractor.flashcardDifficulty, ContextAnalyzer.truthyGe]
      · refine ⟨rfl, ?_, ?_, ?_⟩ <;>
          simp +decide [ParameterExtractor.flashcardDifficulty]
      · refine ⟨rfl, ?_, ?_, ?_⟩ <;>
          simp +decide [ParameterExtractor.flashcardDifficulty]
      · refine ⟨rfl, ?_, ?_, ?_⟩ <;>
          simp +decide [ParameterExtractor.flashcardDifficulty]
    · have hm := hml m rfl
      have hm0 : m ≠ 0 := by omega
      cases e
      · -- focused with mastery m
        rcases le_or_lt 7 m with h7 | h7
        · have ht : ContextAnalyzer.truthyGe (some m) 7 = true := by
            simp [ContextAnalyzer.truthyGe, hm0, h7]
          refine ⟨?_, ?_, ?_, ?_⟩
          · simp only [ContextAnalyzer.inferDifficulty, specDifficultyRule]
            simp +decide [ht, h7]
          · simp +decide [ParameterExtractor.flashcardDifficulty, ht]
          · simp +decide [ParameterExtractor.flashcardDifficulty, ht, h7]
          · simp +decide [ParameterExtractor.flashcardDifficulty, ht]
        · have ht : ContextAnalyzer.truthyGe (some m) 7 = false := by
            simp [ContextAnalyzer.truthyGe, hm0]
            omega
          refine ⟨?_, ?_, ?_, ?_⟩
          · simp only [ContextAnalyzer.inferDifficulty, specDifficultyRule]
            rcases le_or_lt 4 m with h4 | h4
            · have ht4 : ContextAnalyzer.truthyGe (some m) 4 = true := by
                simp [ContextAnalyzer.truthyGe, hm0, h4]
              simp +decide [ht, ht4, show ¬(7 ≤ m) from by omega,
                show 4 ≤ m ∧ m ≤ 6 from by omega]
            · have ht4 : ContextAnalyzer.truthyGe (some m) 4 = false := by
                simp [ContextAnalyzer.truthyGe, hm0]
                omega
              simp +decide [ht, ht4, show ¬(7 ≤ m) from by omega,
                show ¬(4 ≤ m ∧ m ≤ 6) from by omega]
          · simp +decide [ParameterExtractor.flashcardDifficulty, ht]
          · simp +decide [ParameterExtractor.flashcardDifficulty, ht]
            omega
          · simp +decide [ParameterExtractor.flashcardDifficulty, ht]
      · refine ⟨rfl, ?_, ?_, ?_⟩ <;>
          simp +decide [ParameterExtractor.flashcardDifficulty]
      · refine ⟨rfl, ?_, ?_, ?_⟩ <;>
          simp +decide [ParameterExtractor.flashcardDifficulty]
      · refine ⟨rfl, ?_, ?_, ?_⟩ <;>
          simp +decide [ParameterExtractor.flashcardDifficulty]

/-- Witness for C3's amended theorem at emotional state `none`,
mastery 5. -/
theorem c3_difficulty_rule_witness :
    ContextAnalyzer.inferDifficulty none (some 5) = specDifficultyRule none (some 5) ∧
    (ParameterExtractor.flashcardDifficulty none (some 5) = "easy" ↔
      ((none : Option EmotionalState) = some .confused ∨
       (none : Option EmotionalState) = some .anxious)) ∧
    (ParameterExtractor.flashcardDifficulty none (some 5) = "hard" ↔
      ((none : Option EmotionalState) = some .focused ∧
       ∃ m, (some 5 : Option Int) = some m ∧ 7 ≤ m)) ∧
    (ParameterExtractor.flashcardDifficulty none (some 5) = "medium" ∨
     ParameterExtractor.flashcardDifficulty none (some 5) = "easy" ∨
     ParameterExtractor.flashcardDifficulty none (some 5) = "hard") :=
  c3_difficulty_rule none (some 5) (by intro m h; injection h with h; omega)

/-! ### C5 — tool invocation client error normalization -/

/-- C5 counterexample: a non-2xx (404) response whose non-empty body
fails to parse as JSON makes `response.json()` raise inside the handler,
so the client returns `CALL_ERROR` — not the generic HTTP-error code the
claim promises for a non-2xx response without a remote-provided code. -/
theorem c5_counterexample :
    (Orchestrator.callEducationalTool "note_maker" (.response 404 false) .fails).1.success = false ∧
    (Orchestrator.callEducationalTool "note_maker" (.response 404 false) .fails).1.error_code =
      some "CALL_ERROR" ∧
    some "CALL_ERROR" ≠ some ("HTTP_ERROR" : String) := by
  refine ⟨rfl, rfl, by decide⟩

/-- C5 (amended): the client is a total function (it never raises) and
normalizes every failure: unknown tool → `UNKNOWN_TOOL` with no outbound
request; otherwise exactly one request is made and timeout →
`TIMEOUT`, connection failure → `CONNECTION_ERROR`, any other exception →
`CALL_ERROR`; a non-2xx response with an empty body → `HTTP_ERROR`
(message `HTTP <status>`); a non-2xx response with a parseable body →
the remote-provided message/code, defaulting to `HTTP <status>` /
`HTTP_ERROR`; but a response (any status) whose non-empty body fails to
parse → `CALL_ERROR`, the one deviation from the claim. -/
theorem c5_client_normalization (tool : String) (outcome : Orchestrator.TransportOutcome)
    (parse : Orchestrator.BodyParse) :
    (Orchestrator.toolEndpoints tool = none →
      (Orchestrator.callEducationalTool tool outcome parse).1.success = false ∧
      (Orchestrator.callEducationalTool tool outcome parse).1.error_code = some "UNKNOWN_TOOL" ∧
      (Orchestrator.callEducationalTool tool outcome parse).2 = 0) ∧
    (∀ e, Orchestrator.toolEndpoints tool = some e →
      (Orchestrator.callEducationalTool tool outcome parse).2 = 1 ∧
      (outcome = .timeout →
        (Orchestrator.callEducationalTool tool outcome parse).1.success = false ∧
        (Orchestrator.callEducationalTool tool outcome parse).1.error_code = some "TIMEOUT") ∧
      (outcome = .connectError →
        (Orchestrator.callEducationalTool tool outcome parse).1.success = false ∧
        (Orchestrator.callEducationalTool tool outcome parse).1.error_code = some "CONNECTION_ERROR") ∧
      (outcome = .otherExc →
        (Orchestrator.callEducationalTool tool outcome parse).1.success = false ∧
        (Orchestrator.callEducationalTool tool outcome parse).1.error_code = some "CALL_ERROR") ∧
      (∀ st, outcome = .response st true → st ≠ 200 →
        (Orchestrator.callEducationalTool tool outcome parse).1.success = false ∧
        (Orchestrator.callEducationalTool tool outcome parse).1.error = some s!"HTTP {st}" ∧
        (Orchestrator.callEducationalTool tool outcome parse).1.error_code = some "HTTP_ERROR") ∧
      (∀ st j, outcome = .response st false → parse = .parses j → st ≠ 200 →
        (Orchestrator.callEducationalTool tool outcome parse).1.success = false ∧
        (Orchestrator.callEducationalTool tool outcome parse).1.error =
          some (j.errorField.getD s!"HTTP {st}") ∧
        (Orchestrator.callEducationalTool tool outcome parse).1.error_code =
          some (j.errorCodeField.getD "HTTP_ERROR")) ∧
      (∀ st, outcome = .response st false → parse = .fails →
        (Orchestrator.callEducationalTool tool outcome parse).1.success = false ∧
        (Orchestrator.callEducationalTool tool outcome parse).1.error_code = some "CALL_ERROR")) := by
  constructor
  · intro hnone
    simp [Orchestrator.callEducationalTool, hnone]
  · intro e he
    have hcall : ∀ r : ToolResponse,
        Orchestrator.callEducationalTool tool outcome parse = (r, 1) →
        (Orchestrator.callEducationalTool tool outcome parse).1 = r := by
      intro r hr
      rw [hr]
    refine ⟨?_, ?_, ?_, ?_, ?_, ?_, ?_⟩
    · simp [Orchestrator.callEducationalTool, he]
    · rintro rfl
      simp [Orchestrator.callEducationalTool, he]
    · rintro rfl
      simp [Orchestrator.callEducationalTool, he]
    · rintro rfl
      simp [Orchestrator.callEducationalTool, he]
    · rintro st rfl hst
      simp [Orchestrator.callEducationalTool, he, hst]
    · rintro st j rfl rfl hst
      simp [Orchestrator.callEducationalTool, he, hst]
    · rintro st rfl rfl
      by_cases hst : st = 200 <;>
        simp [Orchestrator.callEducationalTool, he, hst]

/-- Witness for C5's amended theorem: a timeout against the configured
flashcard endpoint. -/
theorem c5_client_normalization_witness :
    (Orchestrator.callEducationalTool "flashcard_generator" .timeout (.parses {})).2 = 1 ∧
    (Orchestrator.callEducationalTool "flashcard_generator" .timeout (.parses {})).1.success = false ∧
    (Orchestrator.callEducationalTool "flashcard_generator" .timeout (.parses {})).1.error_code =
      some "TIMEOUT" := by
  have h := (c5_client_normalization "flashcard_generator" .timeout (.parses {})).2
    "http://localhost:8002" rfl
  exact ⟨h.1, (h.2.1 rfl).1, (h.2.1 rfl).2⟩

/-! ### C9 — sanitize_input -/

theorem sanitizeInput_eq_map (d : List (String × Value)) :
    SchemaValidator.sanitizeInput d = d.map (fun kv => (kv.1, SchemaValidator.sanitizeEntry kv.2)) := by
  induction d with
  | nil => rfl
  | cons h t ih =>
    obtain ⟨k, v⟩ := h
    simp [SchemaValidator.sanitizeInput, ih]

theorem sanitizeList_eq_map (xs : List Value) :
    SchemaValidator.sanitizeList xs = xs.map (fun x => match x with
      | .obj fs => .obj (SchemaValidator.sanitizeInput fs)
      | x => x) := by
  induction xs with
  | nil => rfl
  | cons h t ih => cases h <;> simp [SchemaValidator.sanitizeList, ih]

/-- C9 counterexample: the claim says every string at any depth —
including strings that are direct elements of arrays — is trimmed and
null-stripped; but `sanitize_input` returns array-element strings
verbatim: the dirty string `" x\x00 "` inside the array survives
unchanged even though its cleaned form is `"x"`. -/
theorem c9_counterexample :
    alookup (SchemaValidator.sanitizeInput [("a", .arr [.str " x\x00 "])]) "a" =
      some (.arr [.str " x\x00 "]) ∧
    cleanStr " x\x00 " = "x" ∧
    (" x\x00 " : String) ≠ "x" :=
  ⟨rfl, rfl, by decide⟩

/-- C9 (amended): `sanitize_input` preserves the key sequence and the
nesting structure; string values of dicts (at any depth reached through
dicts) are stripped of surrounding whitespace and null bytes; non-string
leaves are unchanged; inside arrays only object elements are recursed
into — every non-object array element, strings included, is returned
verbatim. -/
theorem c9_sanitize_shape (d : List (String × Value)) :
    ((SchemaValidator.sanitizeInput d).map Prod.fst = d.map Prod.fst) ∧
    (∀ i k s, d.get? i = some (k, .str s) →
      (SchemaValidator.sanitizeInput d).get? i = some (k, .str (cleanStr s))) ∧
    (∀ i k fs, d.get? i = some (k, .obj fs) →
      (SchemaValidator.sanitizeInput d).get? i = some (k, .obj (SchemaValidator.sanitizeInput fs))) ∧
    (∀ i k n, d.get? i = some (k, .int n) →
      (SchemaValidator.sanitizeInput d).get? i = some (k, .int n)) ∧
    (∀ i k b, d.get? i = some (k, .bool b) →
      (SchemaValidator.sanitizeInput d).get? i = some (k, .bool b)) ∧
    (∀ i k, d.get? i = some (k, .null) →
      (SchemaValidator.sanitizeInput d).get? i = some (k, .null)) ∧
    (∀ i k xs, d.get? i = some (k, .arr xs) →
      ∃ ys, (SchemaValidator.sanitizeInput d).get? i = some (k, .arr ys) ∧
        ys.length = xs.length ∧
        (∀ j x, xs.get? j = some x → (∀ fs, x ≠ Value.obj fs) → ys.get? j = some x) ∧
        (∀ j fs, xs.get? j = some (.obj fs) →
          ys.get? j = some (.obj (SchemaValidator.sanitizeInput fs)))) := by
  refine ⟨?_, ?_, ?_, ?_, ?_, ?_, ?_⟩
  · rw [sanitizeInput_eq_map, List.map_map]
    rfl
  · intro i k s h
    rw [sanitizeInput_eq_map, List.get?_map, h]
    rfl
  · intro i k fs h
    rw [sanitizeInput_eq_map, List.get?_map, h]
    rfl
  · intro i k n h
    rw [sanitizeInput_eq_map, List.get?_map, h]
    rfl
  · intro i k b h
    rw [sanitizeInput_eq_map, List.get?_map, h]
    rfl
  · intro i k h
    rw [sanitizeInput_eq_map, List.get?_map, h]
    rfl
  · intro i k xs h
    refine ⟨SchemaValidator.sanitizeList xs, ?_, ?_, ?_, ?_⟩
    · rw [sanitizeInput_eq_map, List.get?_map, h]
      rfl
    · rw [sanitizeList_eq_map, List.length_map]
    · intro j x hj hx
      rw [sanitizeList_eq_map, List.get?_map, hj]
      cases x with
      | obj fs => exact absurd rfl (hx fs)
      | str s => rfl
      | int n => rfl
      | bool b => rfl
      | null => rfl
      | arr zs => rfl
    · intro j fs hj
      rw [sanitizeList_eq_map, List.get?_map, hj]
      rfl

/-- Witness for C9's amended theorem on a small concrete dict. -/
theorem c9_sanitize_shape_witness :
    (SchemaValidator.sanitizeInput [("a", .str " p\x00q "), ("b", .arr [.str " r "])]).get? 0 =
      some ("a", .str (cleanStr " p\x00q ")) ∧
    ∃ ys, (SchemaValidator.sanitizeInput [("a", .str " p\x00q "), ("b", .arr [.str " r "])]).get? 1 =
        some ("b", Value.arr ys) ∧
      ys.length = [Value.str " r "].length ∧
      (∀ j x, [Value.str " r "].get? j = some x → (∀ fs, x ≠ Value.obj fs) → ys.get? j = some x) ∧
      (∀ j fs, [Value.str " r "].get? j = some (.obj fs) →
        ys.get? j = some (.obj (SchemaValidator.sanitizeInput fs))) := by
  have h := c9_sanitize_shape [("a", .str " p\x00q "), ("b", .arr [.str " r "])]
  exact ⟨h.2.1 0 "a" " p\x00q " rfl, h.2.2.2.2.2.2 1 "b" [Value.str " r "] rfl⟩

/-! ### C1 — merge semantics of the four extraction passes -/

theorem alookup_applyDefaults_of_some (params defaults : List (String × Value))
    (k : String) (v : Value) (h : alookup params k = some v) :
    alookup (ParameterExtractor.applyDefaults params defaults) k = some v := by
  induction defaults generalizing params with
  | nil => exact h
  | cons kv t ih =>
    obtain ⟨k', v'⟩ := kv
    simp only [ParameterExtractor.applyDefaults, List.foldl_cons]
    by_cases hk : k' = k
    · subst hk
      rw [h]
      simp only [Option.isNone_some, Bool.false_eq_true, if_false]
      exact ih params h
    · cases hn : (alookup params k').isNone
      · simp only [hn, Bool.false_eq_true, if_false]
        exact ih params h
      · simp only [hn, if_true]
        exact ih _ (by rw [alookup_aset_ne _ _ _ _ hk]; exact h)

/-- The contextual pass for the flashcard tool, computed. -/
theorem inferFromContext_flashcard (ctx : ConversationContext) :
    ParameterExtractor.inferFromContext ctx "flashcard_generator" =
      [("user_info", ctx.user_info.toValue),
       ("chat_history", .arr (ctx.chat_history.map ChatMessage.toValue)),
       ("count", .int (ParameterExtractor.flashcardCount ctx.mastery_level)),
       ("difficulty", .str (ParameterExtractor.flashcardDifficulty ctx.emotional_state ctx.mastery_level)),
       ("include_examples", .bool true)] := rfl

/-- Sample data exercising the C1 counterexample. -/
def c1UserInfo : UserInfo :=
  ⟨"stu-1", "Ada", "9", "prefers outlines", "calm today", "beginner"⟩

def c1Context : ConversationContext :=
  { user_info := c1UserInfo, chat_history := [],
    current_message := "I need 15 cards", mastery_level := some 2 }

def c1Intent : EducationalIntent :=
  { intent_type := "flashcard_generation", confidence := 1,
    extracted_parameters := [("count", .int 15)], missing_parameters := [],
    suggested_tool := "flashcard_generator" }

/-- C1 counterexample: the intent carries an explicit `count = 15`, yet
the contextual pass (method 3, a `dict.update`) overwrites it with the
mastery-derived count 5 (mastery 2 ≤ 3), so the merge is not
first-writer-wins and the explicit count does not survive. -/
theorem c1_counterexample :
    alookup c1Intent.extracted_parameters "count" = some (.int 15) ∧
    alookup (ParameterExtractor.extractWithMultipleMethods c1Intent c1Context
      "flashcard_generator" []) "count" = some (.int 5) ∧
    Value.int 5 ≠ Value.int 15 := by
  refine ⟨rfl, rfl, ?_⟩
  intro h
  cases h

/-- C1 (amended): methods 1–3 merge by `dict.update`, i.e. *last* writer
wins — for the flashcard tool the final `count` is always the contextual
pass's mastery-derived count, whatever the intent or the LLM contributed;
only method 4 (defaults) is restricted to keys still absent, so every key
present after methods 1–3 keeps its value through method 4. -/
theorem c1_merge_last_writer_wins (intent : EducationalIntent)
    (ctx : ConversationContext) (llm : List (String × Value)) :
    alookup (ParameterExtractor.extractWithMultipleMethods intent ctx
      "flashcard_generator" llm) "count" =
      some (.int (ParameterExtractor.flashcardCount ctx.mastery_level)) ∧
    (∀ tool k v,
      alookup (ParameterExtractor.mergedBeforeDefaults intent ctx tool llm) k = some v →
      alookup (ParameterExtractor.extractWithMultipleMethods intent ctx tool llm) k = some v) := by
  constructor
  · have h3 : alookup (ParameterExtractor.inferFromContext ctx "flashcard_generator") "count" =
        some (.int (ParameterExtractor.flashcardCount ctx.mastery_level)) := by
      rw [inferFromContext_flashcard]
      rfl
    have hnd : ((ParameterExtractor.inferFromContext ctx "flashcard_generator").map
        Prod.fst).Nodup := by
      rw [inferFromContext_flashcard]
      simp only [List.map_cons, List.map_nil]
      decide
    have hm : alookup (ParameterExtractor.mergedBeforeDefaults intent ctx
        "flashcard_generator" llm) "count" =
        some (.int (ParameterExtractor.flashcardCount ctx.mastery_level)) :=
      alookup_aupdate_of_some _ _ _ _ hnd h3
    exact alookup_applyDefaults_of_some _ _ _ _ hm
  · intro tool k v h
    exact alookup_applyDefaults_of_some _ _ _ _ h

/-- Witness for C1's amended theorem at a concrete context with
mastery 8 (count 15) and an intent that wrote `difficulty`. -/
theorem c1_merge_last_writer_wins_witness :
    alookup (ParameterExtractor.extractWithMultipleMethods
      { intent_type := "flashcard_generation", confidence := 1,
        extracted_parameters := [("topic", .str "Algebra")], missing_parameters := [],
        suggested_tool := "flashcard_generator" }
      { user_info := c1UserInfo, chat_history := [], current_message := "quiz me",
        mastery_level := some 8 }
      "flashcard_generator" []) "count" =
      some (.int (ParameterExtractor.flashcardCount (some 8))) ∧
    alookup (ParameterExtractor.extractWithMultipleMethods
      { intent_type := "flashcard_generation", confidence := 1,
        extracted_parameters := [("topic", .str "Algebra")], missing_parameters := [],
        suggested_tool := "flashcard_generator" }
      { user_info := c1UserInfo, chat_history := [], current_message := "quiz me",
        mastery_level := some 8 }
      "flashcard_generator" []) "topic" = some (.str "Algebra") := by
  have h := c1_merge_last_writer_wins
    { intent_type := "flashcard_generation", confidence := 1,
      extracted_parameters := [("topic", .str "Algebra")], missing_parameters := [],
      suggested_tool := "flashcard_generator" }
    { user_info := c1UserInfo, chat_history := [], current_message := "quiz me",
      mastery_level := some 8 } []
  exact ⟨h.1, h.2 "flashcard_generator" "topic" (.str "Algebra") rfl⟩

/-! ### C10 — intents without an extractor schema -/

/-- C10: for an intent whose selected tool has no extractor schema —
`quiz_generation` → `quiz_generator`, and the `unknown` intent produced
by `analyze_context`'s exception fallback → tool `none` — extraction
fails with empty collections, `fill_missing` on the empty missing list
contributes nothing, and the pipeline ends in the error path with
"Missing intent or parameters", never executing a tool. -/
theorem c10_unschematized_tool_error_path (intent : EducationalIntent)
    (ctx : ConversationContext) (llm : List (String × Value))
    (outcome : Orchestrator.TransportOutcome) (parse : Orchestrator.BodyParse)
    (h : intent.suggested_tool = "quiz_generator" ∨ intent.suggested_tool = "none") :
    ParameterExtractor.extractParameters intent ctx llm =
      { success := false, extracted_parameters := [], missing_parameters := [],
        confidence_scores := [], extraction_method := "error" } ∧
    ParameterExtractor.fillMissingParameters [] ctx = [] ∧
    (Orchestrator.runFromIntent intent ctx llm outcome parse).1.success = false ∧
    (Orchestrator.runFromIntent intent ctx llm outcome parse).1.error_message =
      some "Missing intent or parameters" ∧
    (Orchestrator.runFromIntent intent ctx llm outcome parse).2 = false := by
  have hex : ParameterExtractor.extractParameters intent ctx llm =
      { success := false, extracted_parameters := [], missing_parameters := [],
        confidence_scores := [], extraction_method := "error" } := by
    unfold ParameterExtractor.extractParameters
    rcases h with h | h <;> rw [h] <;> rfl
  refine ⟨hex, rfl, ?_, ?_, ?_⟩ <;>
    simp [Orchestrator.runFromIntent, Orchestrator.extractParametersNode, hex,
      Orchestrator.validateRequestNode, Orchestrator.shouldExecuteTool,
      Orchestrator.handleErrorNode, ParameterExtractor.fillMissingParameters, aupdate]

/-- Witness for C10 at the quiz intent on a concrete context. -/
theorem c10_unschematized_tool_error_path_witness :
    ParameterExtractor.extractParameters
      { intent_type := "quiz_generation", confidence := 2/7,
        extracted_parameters := [("topic", .str "Algebra")], missing_parameters := [],
        suggested_tool := "quiz_generator" }
      { user_info := c1UserInfo, chat_history := [], current_message := "quiz me" } [] =
      { success := false, extracted_parameters := [], missing_parameters := [],
        confidence_scores := [], extraction_method := "error" } ∧
    ParameterExtractor.fillMissingParameters []
      { user_info := c1UserInfo, chat_history := [], current_message := "quiz me" } = [] ∧
    (Orchestrator.runFromIntent
      { intent_type := "quiz_generation", confidence := 2/7,
        extracted_parameters := [("topic", .str "Algebra")], missing_parameters := [],
        suggested_tool := "quiz_generator" }
      { user_info := c1UserInfo, chat_history := [], current_message := "quiz me" }
      [] .timeout .fails).1.success = false ∧
    (Orchestrator.runFromIntent
      { intent_type := "quiz_generation", confidence := 2/7,
        extracted_parameters := [("topic", .str "Algebra")], missing_parameters := [],
        suggested_tool := "quiz_generator" }
      { user_info := c1UserInfo, chat_history := [], current_message := "quiz me" }
      [] .timeout .fails).1.error_message = some "Missing intent or parameters" ∧
    (Orchestrator.runFromIntent
      { intent_type := "quiz_generation", confidence := 2/7,
        extracted_parameters := [("topic", .str "Algebra")], missing_parameters := [],
        suggested_tool := "quiz_generator" }
      { user_info := c1UserInfo, chat_history := [], current_message := "quiz me" }
      [] .timeout .fails).2 = false :=
  c10_unschematized_tool_error_path _ _ [] .timeout .fails (Or.inl rfl)

/-! ### C7 — count extraction clamps into [1, 20] -/

theorem isPrefixOf_append_self (l r : List Char) : l.isPrefixOf (l ++ r) = true := by
  induction l with
  | nil => simp [List.isPrefixOf]
  | cons c t ih => simp [List.isPrefixOf, ih]

theorem digits_run_split (ds t : List Char) (h : ∀ c ∈ ds, Char.isDigit c = true) :
    (ds ++ ' ' :: t).takeWhile Char.isDigit = ds ∧
    (ds ++ ' ' :: t).dropWhile Char.isDigit = ' ' :: t := by
  induction ds with
  | nil => constructor <;> simp [List.takeWhile, List.dropWhile]
  | cons c cs ih =>
    have hc := h c (by simp)
    have ht := ih (fun x hx => h x (by simp [hx]))
    constructor <;> simp [List.takeWhile, List.dropWhile, hc, ht.1, ht.2]

theorem tryCountAt_phrase (ds : List Char) (w : String) (post : List Char)
    (hne : ds ≠ []) (hd : ∀ c ∈ ds, Char.isDigit c = true)
    (hw : w ∈ ["cards", "questions", "notes", "items"]) :
    ∃ n, ContextAnalyzer.tryCountAt ContextAnalyzer.countWords1
      (ds ++ ' ' :: (w.data ++ post)) = some n := by
  have hsplit := digits_run_split ds (w.data ++ post) hd
  refine ⟨ds.foldl (fun acc c => acc * 10 + (c.toNat - '0'.toNat)) 0, ?_⟩
  unfold ContextAnalyzer.tryCountAt
  rw [hsplit.1, hsplit.2]
  have hrun : ds.isEmpty = false := by
    cases ds with
    | nil => exact absurd rfl hne
    | cons a b => rfl
  simp only [hrun, Bool.false_eq_true, if_false]
  fin_cases hw
  · have hp : ("card".data).isPrefixOf ('c' :: 'a' :: 'r' :: 'd' :: 's' :: post) = true :=
      isPrefixOf_append_self "card".data ('s' :: post)
    simp only [show List.dropWhile isPySpace (' ' :: ("cards".data ++ post)) =
      'c' :: 'a' :: 'r' :: 'd' :: 's' :: post from rfl]
    simp [ContextAnalyzer.countWords1, hp]
  · have hp : ("question".data).isPrefixOf
        ('q' :: 'u' :: 'e' :: 's' :: 't' :: 'i' :: 'o' :: 'n' :: 's' :: post) = true :=
      isPrefixOf_append_self "question".data ('s' :: post)
    simp only [show List.dropWhile isPySpace (' ' :: ("questions".data ++ post)) =
      'q' :: 'u' :: 'e' :: 's' :: 't' :: 'i' :: 'o' :: 'n' :: 's' :: post from rfl]
    simp [ContextAnalyzer.countWords1, hp]
  · have hp : ("note".data).isPrefixOf ('n' :: 'o' :: 't' :: 'e' :: 's' :: post) = true :=
      isPrefixOf_append_self "note".data ('s' :: post)
    simp only [show List.dropWhile isPySpace (' ' :: ("notes".data ++ post)) =
      'n' :: 'o' :: 't' :: 'e' :: 's' :: post from rfl]
    simp [ContextAnalyzer.countWords1, hp]
  · have hp : ("item".data).isPrefixOf ('i' :: 't' :: 'e' :: 'm' :: 's' :: post) = true :=
      isPrefixOf_append_self "item".data ('s' :: post)
    simp only [show List.dropWhile isPySpace (' ' :: ("items".data ++ post)) =
      'i' :: 't' :: 'e' :: 'm' :: 's' :: post from rfl]
    simp [ContextAnalyzer.countWords1, hp]

theorem searchCount_of_suffix (words : List String) (l1 l2 : List Char) (n : Nat)
    (h : ContextAnalyzer.tryCountAt words l2 = some n) :
    ∃ m, ContextAnalyzer.searchCount words (l1 ++ l2) = some m := by
  induction l1 with
  | nil =>
    cases l2 with
    | nil => exact ⟨n, by simpa [ContextAnalyzer.searchCount] using h⟩
    | cons c t =>
      refine ⟨n, ?_⟩
      simp only [List.nil_append]
      rw [ContextAnalyzer.searchCount, h]
  | cons c t ih =>
    obtain ⟨m, hm⟩ := ih
    simp only [List.cons_append]
    rw [ContextAnalyzer.searchCount]
    cases htry : ContextAnalyzer.tryCountAt words (c :: (t ++ l2)) with
    | some p => exact ⟨p, rfl⟩
    | none => exact ⟨m, hm⟩

/-- C7: every count `_extract_count` returns lies in [1, 20]; a message
containing a phrase `"N cards/questions/notes/items"` (N a digit string)
always yields such a clamped count; and the claim's examples: "25 cards"
clamps to 20 and "0 cards" clamps to 1. -/
theorem c7_count_clamped :
    (∀ (s : String) (c : Nat), ContextAnalyzer.extractCount s = some c → 1 ≤ c ∧ c ≤ 20) ∧
    (∀ (pre post ds : List Char) (w : String),
      ds ≠ [] → (∀ ch ∈ ds, Char.isDigit ch = true) →
      w ∈ ["cards", "questions", "notes", "items"] →
      ∃ c, ContextAnalyzer.extractCount ⟨pre ++ ds ++ ' ' :: (w.data ++ post)⟩ = some c ∧
        1 ≤ c ∧ c ≤ 20) ∧
    ContextAnalyzer.extractCount "25 cards" = some 20 ∧
    ContextAnalyzer.extractCount "0 cards" = some 1 := by
  have hbound : ∀ (s : String) (c : Nat),
      ContextAnalyzer.extractCount s = some c → 1 ≤ c ∧ c ≤ 20 := by
    intro s c h
    unfold ContextAnalyzer.extractCount at h
    rcases h1 : ContextAnalyzer.searchCount ContextAnalyzer.countWords1 s.data with _ | n
    · rw [h1] at h
      rcases h2 : ContextAnalyzer.searchCount ContextAnalyzer.countWords2 s.data with _ | n
      · rw [h2] at h
        rcases h3 : ContextAnalyzer.searchCount ContextAnalyzer.countWords3 s.data with _ | n
        · rw [h3] at h
          cases h
        · rw [h3] at h
          injection h with h
          omega
      · rw [h2] at h
        injection h with h
        omega
    · rw [h1] at h
      injection h with h
      omega
  refine ⟨hbound, ?_, rfl, rfl⟩
  intro pre post ds w hne hd hw
  obtain ⟨n, hn⟩ := tryCountAt_phrase ds w post hne hd hw
  obtain ⟨m, hm⟩ := searchCount_of_suffix ContextAnalyzer.countWords1 pre
    (ds ++ ' ' :: (w.data ++ post)) n hn
  refine ⟨min (max m 1) 20, ?_, ?_⟩
  · unfold ContextAnalyzer.extractCount
    rw [show (⟨pre ++ ds ++ ' ' :: (w.data ++ post)⟩ : String).data =
      pre ++ (ds ++ ' ' :: (w.data ++ post)) from by simp]
    rw [hm]
  · omega

/-- Witness for C7's quantified part at "send 25 cards now". -/
theorem c7_count_clamped_witness :
    ∃ c, ContextAnalyzer.extractCount
      ⟨"send ".data ++ ['2', '5'] ++ ' ' :: ("cards".data ++ " now".data)⟩ = some c ∧
      1 ≤ c ∧ c ≤ 20 :=
  c7_count_clamped.2.1 "send ".data " now".data ['2', '5'] "cards"
    (by decide) (by decide) (by decide)

/-! ### C8 — flashcard-keyword classification -/

theorem categoryScore_eval (pats : List String) (m : String) (k n : ℕ)
    (hk : (pats.filter (fun p => strContainsSub m p)).length = k)
    (hn : pats.length = n) :
    ContextAnalyzer.categoryScore pats m = (k : ℚ) / (n : ℚ) := by
  unfold ContextAnalyzer.categoryScore
  rw [hk, hn]

/-- C8 counterexample: "quiz" is itself one of the flashcard-generation
patterns (so the message "quiz" contains only keywords drawn from that
set and matches one of its patterns), yet classification returns
`quiz_generation`: the quiz category's score 1/7 beats the flashcard
score 1/8 because the sets share the keyword but differ in size. -/
theorem c8_counterexample :
    "quiz" ∈ ContextAnalyzer.flashcardPatterns ∧
    strContainsSub "quiz" "quiz" = true ∧
    ContextAnalyzer.detectIntent "quiz" none = ("quiz_generation", 1/7) ∧
    ("quiz_generation" : String) ≠ "flashcard_generation" := by
  have hn := categoryScore_eval ContextAnalyzer.noteMakingPatterns (pyLower "quiz") 0 8 rfl rfl
  have hf := categoryScore_eval ContextAnalyzer.flashcardPatterns (pyLower "quiz") 1 8 rfl rfl
  have hc := categoryScore_eval ContextAnalyzer.conceptPatterns (pyLower "quiz") 0 8 rfl rfl
  have hq := categoryScore_eval ContextAnalyzer.quizPatterns (pyLower "quiz") 1 7 rfl rfl
  refine ⟨by decide, by decide, ?_, by decide⟩
  unfold ContextAnalyzer.detectIntent
  simp only [ContextAnalyzer.intentPatterns, List.map_cons, List.map_nil, hn, hf, hc, hq]
  norm_num [ContextAnalyzer.bestIntent]

/-- C8 (amended): a message that matches at least one flashcard pattern
and no pattern of any *other* category classifies as
`flashcard_generation` with confidence > 0 (the external fallback
modelled as returning no override). -/
theorem c8_flashcard_classification (msg : String)
    (hf : 0 < ContextAnalyzer.categoryScore ContextAnalyzer.flashcardPatterns (pyLower msg))
    (hn : ContextAnalyzer.categoryScore ContextAnalyzer.noteMakingPatterns (pyLower msg) = 0)
    (hc : ContextAnalyzer.categoryScore ContextAnalyzer.conceptPatterns (pyLower msg) = 0)
    (hq : ContextAnalyzer.categoryScore ContextAnalyzer.quizPatterns (pyLower msg) = 0) :
    (ContextAnalyzer.detectIntent msg none).1 = "flashcard_generation" ∧
    0 < (ContextAnalyzer.detectIntent msg none).2 := by
  unfold ContextAnalyzer.detectIntent
  simp only [ContextAnalyzer.intentPatterns, List.map_cons, List.map_nil]
  rw [hn, hc, hq]
  simp only [ContextAnalyzer.bestIntent, hf, if_pos]
  have h1 : ¬((ContextAnalyzer.categoryScore ContextAnalyzer.flashcardPatterns
      (pyLower msg) : ℚ) < 0) :=
    not_lt.mpr (le_of_lt hf)
  simp only [h1, if_false]
  by_cases hlt : (ContextAnalyzer.categoryScore ContextAnalyzer.flashcardPatterns
      (pyLower msg) : ℚ) < 1/2 <;>
    simp [hlt, hf]

/-- Witness for C8's amended theorem at the message "memorize". -/
theorem c8_flashcard_classification_witness :
    (ContextAnalyzer.detectIntent "memorize" none).1 = "flashcard_generation" ∧
    0 < (ContextAnalyzer.detectIntent "memorize" none).2 := by
  refine c8_flashcard_classification "memorize" ?_ ?_ ?_ ?_
  · rw [categoryScore_eval ContextAnalyzer.flashcardPatterns (pyLower "memorize") 1 8 rfl rfl]
    norm_num
  · rw [categoryScore_eval ContextAnalyzer.noteMakingPatterns (pyLower "memorize") 0 8 rfl rfl]
    norm_num
  · rw [categoryScore_eval ContextAnalyzer.conceptPatterns (pyLower "memorize") 0 8 rfl rfl]
    norm_num
  · rw [categoryScore_eval ContextAnalyzer.quizPatterns (pyLower "memorize") 0 7 rfl rfl]
    norm_num

/-! ### C2 — aggregate validation result -/

/-- C2 counterexample: the validator's `except` handler discards the
errors accumulated so far.  For a `note_maker` request whose only
parameter is `user_info = 5` (topic, subject, … all missing), the deep
user-info check executes Python's `"user_id" in 5`, which raises
`TypeError`; the handler returns the single `VALIDATION_ERROR` error, so
no `MISSING_REQUIRED` error is reported although required fields are
missing. -/
theorem c2_counterexample :
    (SchemaValidator.toolSchemas "note_maker").isSome = true ∧
    (fun k => if k = "user_info" then some (Value.int 5) else none) "topic" = none ∧
    (SchemaValidator.validateToolRequest "note_maker"
      (fun k => if k = "user_info" then some (Value.int 5) else none)).errors =
      [⟨"schema_mismatch", "general", "Validation failed: TypeError", "VALIDATION_ERROR"⟩] ∧
    ∀ e ∈ (SchemaValidator.validateToolRequest "note_maker"
      (fun k => if k = "user_info" then some (Value.int 5) else none)).errors,
      e.code ≠ "MISSING_REQUIRED" := by
  refine ⟨rfl, rfl, rfl, ?_⟩
  intro e he
  rw [show (SchemaValidator.validateToolRequest "note_maker"
      (fun k => if k = "user_info" then some (Value.int 5) else none)).errors =
      [⟨"schema_mismatch", "general", "Validation failed: TypeError", "VALIDATION_ERROR"⟩]
    from rfl] at he
  simp only [List.mem_singleton] at he
  subst he
  decide

/-- C2 (amended): the result is valid iff zero errors were recorded, and
`validated_data` is populated only when valid — in every branch,
including the unknown-tool and exception branches.  The
missing-required-field guarantee holds whenever the deep structural
checks cannot raise (user_info, when present, an object; chat_history,
when present, an array): then a request missing a required field is
invalid with null `validated_data` and at least one `MISSING_REQUIRED`
error.  When a present user_info/chat_history value makes a deep check
raise, the accumulated errors are replaced by the single
`VALIDATION_ERROR` entry (still invalid, still null data). -/
theorem c2_validation_result (tool : String) (params : String → Option Value) :
    ((SchemaValidator.validateToolRequest tool params).is_valid = true ↔
      (SchemaValidator.validateToolRequest tool params).errors = []) ∧
    ((SchemaValidator.validateToolRequest tool params).is_valid = false →
      (SchemaValidator.validateToolRequest tool params).validated_data = none) ∧
    (∀ schema, SchemaValidator.toolSchemas tool = some schema →
      (∀ v, params "user_info" = some v → v.isObj = true) →
      (∀ v, params "chat_history" = some v → v.isArr = true) →
      ∀ f ∈ schema.required_fields, params f = none →
      (SchemaValidator.validateToolRequest tool params).is_valid = false ∧
      (SchemaValidator.validateToolRequest tool params).validated_data = none ∧
      ∃ e ∈ (SchemaValidator.validateToolRequest tool params).errors,
        e.code = "MISSING_REQUIRED") := by
  refine ⟨?_, ?_, ?_⟩
  · unfold SchemaValidator.validateToolRequest
    cases hs : SchemaValidator.toolSchemas tool with
    | none => simp
    | some schema =>
      cases hv : SchemaValidator.validateKnown schema params with
      | error e => simp [hv]
      | ok errs => simp [hv, List.isEmpty_iff]
  · unfold SchemaValidator.validateToolRequest
    cases hs : SchemaValidator.toolSchemas tool with
    | none => simp
    | some schema =>
      cases hv : SchemaValidator.validateKnown schema params with
      | error e => simp [hv]
      | ok errs =>
        by_cases he : errs.isEmpty = true <;> simp [hv, he]
  · intro schema hs hui hch f hf hpf
    obtain ⟨e2, he2⟩ : ∃ l, (match params "user_info" with
        | none => Except.ok []
        | some v => SchemaValidator.userInfoCheck v) = Except.ok l := by
      cases hpu : params "user_info" with
      | none => exact ⟨[], rfl⟩
      | some v =>
        have hv := hui v hpu
        cases v <;> simp [Value.isObj] at hv
        exact ⟨_, rfl⟩
    obtain ⟨e3, he3⟩ : ∃ l, (match params "chat_history" with
        | none => Except.ok []
        | some v => SchemaValidator.chatHistoryCheck v) = Except.ok l := by
      cases hpc : params "chat_history" with
      | none => exact ⟨[], rfl⟩
      | some v =>
        have hv := hch v hpc
        cases v <;> simp [Value.isArr] at hv
        exact ⟨_, rfl⟩
    have hvk : SchemaValidator.validateKnown schema params =
        Except.ok ((SchemaValidator.requiredErrors schema params ++
          SchemaValidator.optionalErrors schema params) ++ e2 ++ e3) := by
      unfold SchemaValidator.validateKnown
      rw [he2, he3]
    have hmem : (⟨"missing_required", f, s!"Required field '{f}' is missing",
        "MISSING_REQUIRED"⟩ : SchemaValidator.VError) ∈
        SchemaValidator.requiredErrors schema params := by
      unfold SchemaValidator.requiredErrors
      refine List.mem_flatMap.mpr ⟨f, hf, ?_⟩
      rw [hpf]
      exact List.mem_singleton.mpr rfl
    have hne : ¬((SchemaValidator.requiredErrors schema params ++
        SchemaValidator.optionalErrors schema params) ++ e2 ++ e3).isEmpty = true := by
      intro hemp
      rw [List.isEmpty_iff] at hemp
      have : (⟨"missing_required", f, s!"Required field '{f}' is missing",
          "MISSING_REQUIRED"⟩ : SchemaValidator.VError) ∈
          ((SchemaValidator.requiredErrors schema params ++
            SchemaValidator.optionalErrors schema params) ++ e2 ++ e3) := by
        simp only [List.mem_append]
        exact Or.inl (Or.inl (Or.inl hmem))
      rw [hemp] at this
      cases this
    have hfalse : (SchemaValidator.requiredErrors schema params ++
        SchemaValidator.optionalErrors schema params ++ e2 ++ e3).isEmpty = false :=
      Bool.eq_false_iff.mpr hne
    unfold SchemaValidator.validateToolRequest
    simp only [hs, hvk, hfalse]
    refine ⟨trivial, by simp, ?_⟩
    refine ⟨⟨"missing_required", f, s!"Required field '{f}' is missing",
      "MISSING_REQUIRED"⟩, ?_, rfl⟩
    simp only [List.mem_append]
    exact Or.inl (Or.inl (Or.inl hmem))

/-- Witness for C2's amended theorem: the empty parameter bag for the
flashcard tool is missing the required `topic`. -/
theorem c2_validation_result_witness :
    (SchemaValidator.validateToolRequest "flashcard_generator" (fun _ => none)).is_valid = false ∧
    (SchemaValidator.validateToolRequest "flashcard_generator" (fun _ => none)).validated_data = none ∧
    ∃ e ∈ (SchemaValidator.validateToolRequest "flashcard_generator" (fun _ => none)).errors,
      e.code = "MISSING_REQUIRED" :=
  (c2_validation_result "flashcard_generator" (fun _ => none)).2.2
    { required_fields := ["user_info", "topic", "count", "difficulty", "subject"],
      optional_fields := ["include_examples"],
      field_types := [("user_info", "object"), ("topic", "string"), ("count", "integer"),
                      ("difficulty", "enum"), ("subject", "string"), ("include_examples", "boolean")],
      constraints := [("topic", { min_length := some 1, max_length := some 200 }),
                      ("count", { intMin := some 1, intMax := some 20 }),
                      ("difficulty", { enum_values := some ["easy", "medium", "hard"] }),
                      ("subject", { min_length := some 1, max_length := some 100 }),
                      ("include_examples", { typeTag := some "boolean" })] }
    rfl (fun v hv => by cases hv) (fun v hv => by cases hv)
    "topic" (by decide) rfl

/-! ### C4 — chat-history role validation -/

/-- A fully schema-compliant `note_maker` request except that its single
chat message carries `role = "system"`. -/
def c4UserInfoVal : Value :=
  .obj [("user_id", .str "u1"), ("name", .str "Ada"), ("grade_level", .str "9"),
        ("learning_style_summary", .str "visual"),
        ("emotional_state_summary", .str "calm"),
        ("mastery_level_summary", .str "average")]

def c4Params : String → Option Value := fun k =>
  if k = "user_info" then some c4UserInfoVal
  else if k = "chat_history" then
    some (.arr [.obj [("role", .str "system"), ("content", .str "hello")]])
  else if k = "topic" then some (.str "Photosynthesis")
  else if k = "subject" then some (.str "Biology")
  else if k = "note_taking_style" then some (.str "outline")
  else none

/-- C4: the validation rules declare `role ∈ {user, assistant}` under the
key `enum`, but `_validate_constraints` only ever reads `enum_values`, so
the declared role constraint is never enforced: the request whose chat
message has `role = "system"` — a role outside the declared set — comes
back fully valid with zero errors.  The code contradicts its own
declared rule table (the claim and the spec state the intended
behaviour). -/
theorem c4_role_enum_not_enforced :
    c4Params "chat_history" =
      some (.arr [.obj [("role", .str "system"), ("content", .str "hello")]]) ∧
    ("system" : String) ∉ ["user", "assistant"] ∧
    SchemaValidator.roleConstraints.enumTag = some ["user", "assistant"] ∧
    SchemaValidator.roleConstraints.enum_values = none ∧
    (SchemaValidator.validateToolRequest "note_maker" c4Params).is_valid = true ∧
    (SchemaValidator.validateToolRequest "note_maker" c4Params).errors = [] :=
  ⟨rfl, by decide, rfl, rfl, by decide, by decide⟩

/-! ### C6 — round-trip idempotence of validation -/

/-- C6: when a tool request validates successfully, re-validating its
`validated_data` as the parameter bag for the same tool succeeds again
and reproduces exactly the same validated map (hence the identical field
set). -/
theorem c6_roundtrip (tool : String) (params D : String → Option Value)
    (hv : (SchemaValidator.validateToolRequest tool params).is_valid = true)
    (hd : (SchemaValidator.validateToolRequest tool params).validated_data = some D) :
    (SchemaValidator.validateToolRequest tool D).is_valid = true ∧
    (SchemaValidator.validateToolRequest tool D).validated_data = some D := by
  cases hs : SchemaValidator.toolSchemas tool with
  | none =>
    unfold SchemaValidator.validateToolRequest at hv
    simp [hs] at hv
  | some schema =>
    cases hk : SchemaValidator.validateKnown schema params with
    | error e =>
      unfold SchemaValidator.validateToolRequest at hv
      simp [hs, hk] at hv
    | ok errs =>
      unfold SchemaValidator.validateToolRequest at hv hd
      simp only [hs, hk] at hv hd
      have herrs : errs = [] := List.isEmpty_iff.mp hv
      subst herrs
      simp only [List.isEmpty_nil, if_true, SchemaValidator.ValidationResult.validated_data,
        Option.some.injEq] at hd
      -- decompose the successful first validation
      have hcomp : SchemaValidator.requiredErrors schema params = [] ∧
          SchemaValidator.optionalErrors schema params = [] ∧
          (match params "user_info" with
           | none => Except.ok ([] : List SchemaValidator.VError)
           | some v => SchemaValidator.userInfoCheck v) = Except.ok [] ∧
          (match params "chat_history" with
           | none => Except.ok ([] : List SchemaValidator.VError)
           | some v => SchemaValidator.chatHistoryCheck v) = Except.ok [] := by
        unfold SchemaValidator.validateKnown at hk
        cases h2 : (match params "user_info" with
            | none => Except.ok ([] : List SchemaValidator.VError)
            | some v => SchemaValidator.userInfoCheck v) with
        | error e => rw [h2] at hk; simp at hk
        | ok l2 =>
          cases h3 : (match params "chat_history" with
              | none => Except.ok ([] : List SchemaValidator.VError)
              | some v => SchemaValidator.chatHistoryCheck v) with
          | error e =>
            rw [h2] at hk
            dsimp only at hk
            rw [h3] at hk
            simp at hk
          | ok l3 =>
            rw [h2] at hk
            dsimp only at hk
            rw [h3] at hk
            dsimp only at hk
            rw [Except.ok.injEq] at hk
            rw [List.append_eq_nil, List.append_eq_nil, List.append_eq_nil] at hk
            obtain ⟨⟨⟨ha, hb⟩, hl2⟩, hl3⟩ := hk
            subst hl2
            subst hl3
            exact ⟨ha, hb, rfl, rfl⟩
      obtain ⟨hreqnil, hoptnil, hui, hch⟩ := hcomp
      have hreq : ∀ f ∈ schema.required_fields, ∃ v, params f = some v ∧
          SchemaValidator.validateField f v schema = [] := by
        intro f hf
        have h := List.flatMap_eq_nil_iff.mp hreqnil f hf
        cases hp : params f with
        | none => rw [hp] at h; simp at h
        | some v => rw [hp] at h; exact ⟨v, rfl, h⟩
      have hDsome : ∀ k v, D k = some v → params k = some v ∧
          SchemaValidator.validateField k v schema = [] := by
        intro k v h
        rw [← hd] at h
        simp only [SchemaValidator.validatedData] at h
        by_cases hc : (k ∈ schema.required_fields ∨ k ∈ schema.optional_fields)
        · rw [if_pos hc] at h
          cases hp : params k with
          | none => rw [hp] at h; simp at h
          | some w =>
            rw [hp] at h
            dsimp only at h
            by_cases hw : (SchemaValidator.validateField k w schema).isEmpty = true
            · rw [if_pos hw] at h
              have hwv : w = v := Option.some.inj h
              subst hwv
              exact ⟨rfl, List.isEmpty_iff.mp hw⟩
            · rw [if_neg hw] at h; cases h
        · rw [if_neg hc] at h; cases h
      have hDreq : ∀ f ∈ schema.required_fields, ∃ v, D f = some v := by
        intro f hf
        obtain ⟨v, hp, hvf⟩ := hreq f hf
        refine ⟨v, ?_⟩
        rw [← hd]
        simp only [SchemaValidator.validatedData]
        rw [if_pos (Or.inl hf), hp]
        dsimp only
        rw [hvf]
        rfl
      -- the second validation succeeds component by component
      have hreq2 : SchemaValidator.requiredErrors schema D = [] := by
        unfold SchemaValidator.requiredErrors
        refine List.flatMap_eq_nil_iff.mpr ?_
        intro f hf
        obtain ⟨v, hDv⟩ := hDreq f hf
        rw [hDv]
        exact (hDsome f v hDv).2
      have hopt2 : SchemaValidator.optionalErrors schema D = [] := by
        unfold SchemaValidator.optionalErrors
        refine List.flatMap_eq_nil_iff.mpr ?_
        intro f hf
        cases hDv : D f with
        | none => rfl
        | some v => exact (hDsome f v hDv).2
      have hui2 : (match D "user_info" with
          | none => Except.ok ([] : List SchemaValidator.VError)
          | some v => SchemaValidator.userInfoCheck v) = Except.ok [] := by
        cases hDv : D "user_info" with
        | none => rfl
        | some v =>
          have hp := (hDsome _ _ hDv).1
          rw [hp] at hui
          exact hui
      have hch2 : (match D "chat_history" with
          | none => Except.ok ([] : List SchemaValidator.VError)
          | some v => SchemaValidator.chatHistoryCheck v) = Except.ok [] := by
        cases hDv : D "chat_history" with
        | none => rfl
        | some v =>
          have hp := (hDsome _ _ hDv).1
          rw [hp] at hch
          exact hch
      have hk2 : SchemaValidator.validateKnown schema D = Except.ok [] := by
        unfold SchemaValidator.validateKnown
        simp only [hui2, hch2, hreq2, hopt2, List.append_nil, List.nil_append]
      have hfix : SchemaValidator.validatedData schema D = D := by
        funext k
        simp only [SchemaValidator.validatedData]
        by_cases hc : (k ∈ schema.required_fields ∨ k ∈ schema.optional_fields)
        · rw [if_pos hc]
          cases hDv : D k with
          | none => rfl
          | some v =>
            have hvf := (hDsome k v hDv).2
            dsimp only
            rw [hvf]
            rfl
        · rw [if_neg hc]
          rw [← hd]
          simp only [SchemaValidator.validatedData]
          rw [if_neg hc]
      constructor
      · unfold SchemaValidator.validateToolRequest
        simp [hs, hk2]
      · unfold SchemaValidator.validateToolRequest
        simp [hs, hk2, hfix]

/-- The flashcard schema literal, for the C6 witness. -/
def c6Schema : SchemaValidator.ToolSchema :=
  { required_fields := ["user_info", "topic", "count", "difficulty", "subject"],
    optional_fields := ["include_examples"],
    field_types := [("user_info", "object"), ("topic", "string"), ("count", "integer"),
                    ("difficulty", "enum"), ("subject", "string"), ("include_examples", "boolean")],
    constraints := [("topic", { min_length := some 1, max_length := some 200 }),
                    ("count", { intMin := some 1, intMax := some 20 }),
                    ("difficulty", { enum_values := some ["easy", "medium", "hard"] }),
                    ("subject", { min_length := some 1, max_length := some 100 }),
                    ("include_examples", { typeTag := some "boolean" })] }

/-- A fully valid flashcard request for the C6 witness. -/
def c6Params : String → Option Value := fun k =>
  if k = "user_info" then some c4UserInfoVal
  else if k = "topic" then some (.str "Algebra")
  else if k = "count" then some (.int 5)
  else if k = "difficulty" then some (.str "easy")
  else if k = "subject" then some (.str "Math")
  else none

/-- Witness for C6 at a concrete valid flashcard request. -/
theorem c6_roundtrip_witness :
    (SchemaValidator.validateToolRequest "flashcard_generator"
      (SchemaValidator.validatedData c6Schema c6Params)).is_valid = true ∧
    (SchemaValidator.validateToolRequest "flashcard_generator"
      (SchemaValidator.validatedData c6Schema c6Params)).validated_data =
      some (SchemaValidator.validatedData c6Schema c6Params) :=
  c6_roundtrip "flashcard_generator" c6Params
    (SchemaValidator.validatedData c6Schema c6Params) (by decide) rfl
